import Mathlib

/-!
# Spot-check report: response normalisation and summary aggregation

A shallow embedding of the two API modules of the spot-check report page,
`spotcheck-mismatch-summary-api.js` and `spotcheck-mismatch-api.js`, and of the
functions of the page controller `spotcheck-report-page.js` that prepare the
request for mismatches and read the summary.

JavaScript objects received as JSON become structures; a property that the code
tests for presence, or whose absence makes the code throw, is an `Option`.
A function that can throw a `TypeError` returns `Option`, `none` standing for the
throw. The global lookup tables (`referenceContentTypeMap`,
`referenceTypeDisplayMap`) and the date formatting of `moment` are parameters.
Numbers are the integer values of JavaScript numbers: `+` on them is the exact
sum rounded to the nearest binary64 value, ties to even. The case conversions
`toLowerCase`/`toUpperCase` follow Unicode on the characters up to U+00FF.
-/

namespace Spotcheck

/-! ## JavaScript numbers -/

/-- The number of halvings that bring `a` below `2 ^ 53`, counted up to `fuel`:
the number of bits by which `a` is longer than a 53-bit significand. For `a`
below `2 ^ 1024` a fuel of 971 is never used up. -/
def excessBits : Nat → Nat → Nat
  | 0, _ => 0
  | fuel + 1, a => if a < 2 ^ 53 then 0 else excessBits fuel (a / 2) + 1

/-- The binary64 value nearest to the natural number `a`, ties going to the even
significand: `a` itself below `2 ^ 53`, otherwise a multiple of the unit in the
last place. -/
def roundNat (a : Nat) : Nat :=
  if a < 2 ^ 53 then a
  else
    let ulp := 2 ^ excessBits 971 a
    let q := a / ulp
    let rem := a % ulp
    if 2 * rem < ulp then q * ulp
    else if ulp < 2 * rem then (q + 1) * ulp
    else (q + q % 2) * ulp

/-- The binary64 value nearest to the integer `x`, ties to even. -/
def roundDouble (x : Int) : Int :=
  match x with
  | Int.ofNat a => Int.ofNat (roundNat a)
  | Int.negSucc a => -Int.ofNat (roundNat (a + 1))

/-- The JavaScript `a + b` on two integer-valued numbers: the exact sum rounded
to binary64. The result is the one of the code as long as it is finite, that
is below `2 ^ 1024` in magnitude. -/
def addDouble (a b : Int) : Int :=
  roundDouble (a + b)

/-- The value of a counter that starts at 0 and takes `+= x` for each `x` of
the sequence, in order. -/
def sumDouble (l : List Int) : Int :=
  l.foldl addDouble 0

/-! ## JavaScript primitives -/

/-- A JavaScript primitive value as it occurs in the payloads: `undefined`
(an absent property), `null`, `NaN`, an integer number, or a string. -/
inductive JSVal where
  | undefined
  | null
  | nan
  | num (n : Int)
  | str (s : String)
  deriving DecidableEq, Repr

namespace JSVal

/-- The JavaScript `ToString` conversion of a primitive; a number is written
with all its decimal digits, as JavaScript does up to `2 ^ 53` in magnitude. -/
def toStr : JSVal → String
  | undefined => "undefined"
  | null => "null"
  | nan => "NaN"
  | num n => toString n
  | str s => s

/-- The JavaScript `ToBoolean` conversion: `undefined`, `null`, `NaN`, `0` and
the empty string are falsy, everything else is truthy. -/
def truthy : JSVal → Bool
  | undefined => false
  | null => false
  | nan => false
  | num n => n != 0
  | str s => s != ""

/-- The JavaScript `ToNumber` conversion of a non-string primitive
(`none` stands for `NaN`). -/
def toNumber? : JSVal → Option Int
  | undefined => none
  | null => some 0
  | nan => none
  | num n => some n
  | str _ => none

/-- The JavaScript binary `+`: string concatenation as soon as one operand is
a string, numeric addition otherwise. -/
def add : JSVal → JSVal → JSVal
  | str a, b => str (a ++ b.toStr)
  | a, str b => str (a.toStr ++ b)
  | a, b =>
    match a.toNumber?, b.toNumber? with
    | some x, some y => num (addDouble x y)
    | _, _ => nan

/-- The JavaScript `a || b`. -/
def or (a b : JSVal) : JSVal :=
  if a.truthy then a else b

/-- An optional integer property read as a JavaScript value. -/
def ofOptInt : Option Int → JSVal
  | none => undefined
  | some n => num n

/-- An optional string property read as a JavaScript value. -/
def ofOptStr : Option String → JSVal
  | none => undefined
  | some s => str s

end JSVal

/-! ## Summary aggregation (`spotcheck-mismatch-summary-api.js`) -/

/-- The `mismatchStatuses` object of a summary node; each bucket may be absent. -/
structure MismatchStatuses where
  NEW : Option Int
  EXISTING : Option Int
  RESOLVED : Option Int
  deriving DecidableEq, Repr

/-- A node of `summaryMap`. The property `refType` is the one
`countsForContentType` reads from the node itself. -/
structure RefTypeNode where
  refType : Option String
  openMismatches : Int
  mismatchStatuses : MismatchStatuses
  deriving DecidableEq, Repr

/-- The `result` object of the summary response: `summaryMap` as the sequence of
its own properties (key, node), in the order `angular.forEach` visits them. -/
structure SummaryResult where
  summaryMap : List (String × RefTypeNode)
  deriving DecidableEq, Repr

/-- The response of the summary endpoint. -/
structure SummaryResponse where
  result : SummaryResult
  deriving DecidableEq, Repr

/-- The object built by the constructor `MismatchSummary`. -/
structure MismatchSummary where
  openCount : Int
  newCount : Int
  existingCount : Int
  resolvedCount : Int
  billCount : Int
  calendarCount : Int
  agendaCount : Int
  deriving DecidableEq, Repr

/-- The global `referenceContentTypeMap`, read at a property name: the content
type string stored there, or `none` when the property is absent (or holds
something that is not a string). -/
abbrev ContentTypeMap := String → Option String

/-- The expression `x || 0` on an optional integer bucket. -/
def orZero : Option Int → Int
  | none => 0
  | some v => if v = 0 then 0 else v

/-- The property name under which `referenceContentTypeMap[referenceNode.refType]`
looks: the node's `refType`, or `"undefined"` when the node has none. -/
def refTypeKey (referenceNode : RefTypeNode) : String :=
  (JSVal.ofOptStr referenceNode.refType).toStr

/-- The function `countsForContentType(contentType, referenceNode)`. -/
def countsForContentType (referenceContentTypeMap : ContentTypeMap)
    (contentType : String) (referenceNode : RefTypeNode) : Int :=
  if referenceContentTypeMap (refTypeKey referenceNode) = some contentType then
    referenceNode.openMismatches
  else
    0

/-- The body of the callback of `angular.forEach` in `createSummary`: the seven
running counters after visiting the node `refType`, each `+=` being an addition
of JavaScript numbers. -/
def summaryStep (referenceContentTypeMap : ContentTypeMap)
    (acc : MismatchSummary) (refType : RefTypeNode) : MismatchSummary :=
  { openCount := addDouble acc.openCount refType.openMismatches
    newCount := addDouble acc.newCount (orZero refType.mismatchStatuses.NEW)
    existingCount := addDouble acc.existingCount (orZero refType.mismatchStatuses.EXISTING)
    resolvedCount := addDouble acc.resolvedCount (orZero refType.mismatchStatuses.RESOLVED)
    billCount :=
      addDouble acc.billCount (countsForContentType referenceContentTypeMap "BILL" refType)
    calendarCount :=
      addDouble acc.calendarCount
        (countsForContentType referenceContentTypeMap "CALENDAR" refType)
    agendaCount :=
      addDouble acc.agendaCount (countsForContentType referenceContentTypeMap "AGENDA" refType) }

/-- The function `createSummary(response)`: the counters start at 0 and the
callback runs once per property of `summaryMap`, receiving the node. -/
def createSummary (referenceContentTypeMap : ContentTypeMap)
    (response : SummaryResponse) : MismatchSummary :=
  (response.result.summaryMap.map Prod.snd).foldl (summaryStep referenceContentTypeMap)
    ⟨0, 0, 0, 0, 0, 0, 0⟩

/-! ## Mismatch list normalisation (`spotcheck-mismatch-api.js`) -/

/-- The object `key.agendaId`; its `number` is an integer or absent. -/
structure AgendaId where
  number : Option Int
  deriving DecidableEq, Repr

/-- The object `key.committeeId`. -/
structure CommitteeId where
  name : JSVal
  deriving DecidableEq, Repr

/-- The object `key.session`; the empty object `{}` has `year` undefined. -/
structure Session where
  year : JSVal
  deriving DecidableEq, Repr

/-- The composite `key` of a raw mismatch, with the properties the code reads. -/
structure MismatchKey where
  type : Option String
  calNo : JSVal
  version : JSVal
  sequenceNo : JSVal
  agendaId : Option AgendaId
  addendum : Option String
  committeeId : Option CommitteeId
  printNo : Option String
  basePrintNo : JSVal
  session : Option Session
  deriving DecidableEq, Repr

/-- The object `issueIds` of a raw mismatch. -/
structure IssueIds where
  items : Option (List String)
  deriving DecidableEq, Repr

/-- A raw mismatch record of the response. -/
structure RawMismatch where
  mismatchId : JSVal
  key : Option MismatchKey
  contentType : JSVal
  dataSource : JSVal
  status : Option String
  mismatchType : JSVal
  referenceType : JSVal
  referenceDateTime : JSVal
  observedDateTime : JSVal
  reportDateTime : JSVal
  issueIds : Option IssueIds
  referenceData : JSVal
  observedData : JSVal
  ignoreStatus : Option String
  deriving DecidableEq, Repr

/-- The object literal returned by `createMismatch`. -/
structure DisplayMismatch where
  id : JSVal
  key : Option MismatchKey
  contentType : JSVal
  status : String
  datasource : JSVal
  mismatchType : JSVal
  observedDate : String
  referenceDate : String
  reportDate : String
  issue : String
  issueInput : String
  refTypeLabel : JSVal
  refType : JSVal
  bill : JSVal
  billId : JSVal
  calNo : JSVal
  calType : JSVal
  session : Session
  basePrintNo : JSVal
  referenceData : JSVal
  observedData : JSVal
  diffLoading : Bool
  agendaNo : JSVal
  committee : JSVal
  deriving DecidableEq, Repr

/-- The `result` object of the mismatches response. -/
structure MismatchItems where
  items : List RawMismatch
  deriving DecidableEq, Repr

/-- The response of the mismatches endpoint. -/
structure MismatchResponse where
  total : JSVal
  result : MismatchItems
  deriving DecidableEq, Repr

/-- The object `pagination` of the value returned by `parseMismatches`. -/
structure Pagination where
  total : JSVal
  deriving DecidableEq, Repr

/-- The value returned by `parseMismatches`. -/
structure MismatchResult where
  pagination : Pagination
  mismatches : List DisplayMismatch
  deriving DecidableEq, Repr

/-- What the module takes from its surroundings: the global
`referenceTypeDisplayMap` read at a property name, and
`moment(x).format(DATE_FORMAT)` as a function of `x`. -/
structure Env where
  referenceTypeDisplayMap : String → JSVal
  momentFormat : JSVal → String

/-- The lower case of a character in the Unicode case mapping, for the
characters up to U+00FF: `A`-`Z`, `À`-`Ö` and `Ø`-`Þ` move 32 places up, every
other character is its own lower case. A character beyond U+00FF is left as it
is. -/
def lowerChar (c : Char) : Char :=
  let n := c.toNat
  if (65 ≤ n ∧ n ≤ 90) ∨ (192 ≤ n ∧ n ≤ 222 ∧ n ≠ 215) then Char.ofNat (n + 32) else c

/-- The upper case of a character in the Unicode case mapping, for the
characters up to U+00FF: `a`-`z`, `à`-`ö` and `ø`-`þ` move 32 places down, `ß`
becomes the two characters `SS`, `µ` becomes U+039C, `ÿ` becomes U+0178, every
other character is its own upper case. A character beyond U+00FF is left as it
is. -/
def upperChars (c : Char) : List Char :=
  let n := c.toNat
  if (97 ≤ n ∧ n ≤ 122) ∨ (224 ≤ n ∧ n ≤ 254 ∧ n ≠ 247) then [Char.ofNat (n - 32)]
  else if n = 223 then ['S', 'S']
  else if n = 181 then [Char.ofNat 924]
  else if n = 255 then [Char.ofNat 376]
  else [c]

/-- The method `toLowerCase()`: each character replaced by its lower case. -/
def toLowerCase (s : String) : String :=
  ⟨s.data.map lowerChar⟩

/-- The method `toUpperCase()`: each character replaced by its upper case,
which can be more than one character. -/
def toUpperCase (s : String) : String :=
  ⟨(s.data.map upperChars).flatten⟩

/-- The method `charAt(0)`: the first character as a string, `""` if none
(a character up to U+FFFF is one code unit of the JavaScript string). -/
def charAt0 (s : String) : String :=
  ⟨s.data.take 1⟩

/-- The method `slice(1)`: the string without its first character. -/
def slice1 (s : String) : String :=
  ⟨s.data.drop 1⟩

/-- The function `patternWords(input)`; `input.toLowerCase()` throws when
`input` is not a string. -/
def patternWords (input : Option String) : Option String :=
  match input with
  | none => none
  | some s =>
    let lower := toLowerCase s
    some (toUpperCase (charAt0 lower) ++ slice1 lower)

/-- The function `parseCalType(mismatch)`. -/
def parseCalType (mismatch : RawMismatch) : Option JSVal :=
  match mismatch.key with
  | none => none
  | some key =>
    match key.type with
    | none => some JSVal.undefined
    | some t =>
      let result := ""
      let result := if t = "ACTIVE_LIST" then "Active" else result
      let result := if t = "FLOOR_CALENDAR" then "Floor" else result
      let result := if t = "SUPPLEMENTAL_CALENDAR" then "Suppl" else result
      some (JSVal.str result)

/-- The function `parseSession(mismatch)`: `mismatch.key.session || {}`. -/
def parseSession (mismatch : RawMismatch) : Option Session :=
  match mismatch.key with
  | none => none
  | some key =>
    match key.session with
    | none => some ⟨JSVal.undefined⟩
    | some s => some s

/-- The function `parseBasePrintNo(mismatch)`. -/
def parseBasePrintNo (mismatch : RawMismatch) : Option JSVal :=
  mismatch.key.map fun key => key.basePrintNo

/-- The function `parseStatus(mismatch)`. -/
def parseStatus (mismatch : RawMismatch) : Option String :=
  patternWords mismatch.status

/-- The function `parseIssues(mismatch)`: `issueIds.items.join(', ')`. -/
def parseIssues (mismatch : RawMismatch) : Option String :=
  match mismatch.issueIds with
  | none => none
  | some ids =>
    match ids.items with
    | none => none
    | some items => some (String.intercalate ", " items)

/-- The function `parseRefTypeLabel(mismatch)`. -/
def parseRefTypeLabel (env : Env) (mismatch : RawMismatch) : JSVal :=
  env.referenceTypeDisplayMap mismatch.referenceType.toStr

/-- The function `parseBill(mismatch)`: `mismatch.key.printNo || ""`. -/
def parseBill (mismatch : RawMismatch) : Option JSVal :=
  mismatch.key.map fun key => JSVal.or (JSVal.ofOptStr key.printNo) (JSVal.str "")

/-- The function `parseBillId(mismatch)`. -/
def parseBillId (mismatch : RawMismatch) : Option JSVal :=
  match parseBill mismatch, parseSession mismatch with
  | some bill, some session => some ((bill.add (JSVal.str "-")).add session.year)
  | _, _ => none

/-- The function `parseCalNo(mismatch)`. The `default` branch also writes the
record to the console, which leaves no trace in the value returned. -/
def parseCalNo (mismatch : RawMismatch) : Option JSVal :=
  match mismatch.key with
  | none => none
  | some key =>
    let calNo := key.calNo
    if !calNo.truthy then
      some (JSVal.str "")
    else if key.type = some "FLOOR_CALENDAR" then
      some (calNo.add (JSVal.str "Floor"))
    else if key.type = some "SUPPLEMENTAL_CALENDAR" then
      some (calNo.add key.version)
    else if key.type = some "ACTIVE_LIST" then
      some ((calNo.add (JSVal.str "-")).add key.sequenceNo)
    else
      some (JSVal.str "Error")

/-- The function `parseAgendaNo(mismatch)`. -/
def parseAgendaNo (mismatch : RawMismatch) : Option JSVal :=
  match mismatch.key with
  | none => none
  | some key =>
    match key.agendaId with
    | none => some (JSVal.str "")
    | some agendaId =>
      if agendaId.number = some (-1) then
        some (JSVal.str "N/A")
      else if key.addendum = some "DEFAULT" then
        some (JSVal.ofOptInt agendaId.number)
      else
        match patternWords key.addendum with
        | none => none
        | some words => some ((JSVal.ofOptInt agendaId.number).add (JSVal.str words))

/-- The function `parseCommittee(mismatch)`. -/
def parseCommittee (mismatch : RawMismatch) : Option JSVal :=
  match mismatch.key with
  | none => none
  | some key =>
    match key.committeeId with
    | none => some (JSVal.str "")
    | some committeeId => some committeeId.name

/-- The function `createMismatch(mismatch)`: the properties of the object
literal are evaluated in order and the first throw aborts the call. -/
def createMismatch (env : Env) (mismatch : RawMismatch) : Option DisplayMismatch := do
  let status ← parseStatus mismatch
  let issue ← parseIssues mismatch
  let issueInput ← parseIssues mismatch
  let bill ← parseBill mismatch
  let billId ← parseBillId mismatch
  let calNo ← parseCalNo mismatch
  let calType ← parseCalType mismatch
  let session ← parseSession mismatch
  let basePrintNo ← parseBasePrintNo mismatch
  let agendaNo ← parseAgendaNo mismatch
  let committee ← parseCommittee mismatch
  pure
    { id := mismatch.mismatchId
      key := mismatch.key
      contentType := mismatch.contentType
      status := status
      datasource := mismatch.dataSource
      mismatchType := mismatch.mismatchType
      observedDate := env.momentFormat mismatch.observedDateTime
      referenceDate := env.momentFormat mismatch.referenceDateTime
      reportDate := env.momentFormat mismatch.reportDateTime
      issue := issue
      issueInput := issueInput
      refTypeLabel := parseRefTypeLabel env mismatch
      refType := mismatch.referenceType
      bill := bill
      billId := billId
      calNo := calNo
      calType := calType
      session := session
      basePrintNo := basePrintNo
      referenceData := mismatch.referenceData
      observedData := mismatch.observedData
      diffLoading := false
      agendaNo := agendaNo
      committee := committee }

/-- The callback of `angular.forEach` in `parseMismatches`: a record that is
not ignored is normalised and pushed at the end of `result.mismatches`. -/
def parseStep (env : Env) (result : MismatchResult) (mismatch : RawMismatch) :
    Option MismatchResult :=
  if mismatch.ignoreStatus = some "NOT_IGNORED" then
    match createMismatch env mismatch with
    | none => none
    | some d => some { result with mismatches := result.mismatches ++ [d] }
  else
    some result

/-- The function `parseMismatches(response)`. -/
def parseMismatches (env : Env) (response : MismatchResponse) : Option MismatchResult :=
  let result : MismatchResult := { pagination := { total := JSVal.num 0 }, mismatches := [] }
  let result := { result with pagination := { total := response.total } }
  response.result.items.foldlM (parseStep env) result

/-! ## Inputs of the documented scenarios -/

/-- The content-type mapping of the summary scenario: `BILL_TEXT→BILL`,
`CALENDAR_ENTRY→CALENDAR`, and no other entry. -/
def scenarioContentTypeMap : ContentTypeMap := fun refType =>
  if refType = "BILL_TEXT" then some "BILL"
  else if refType = "CALENDAR_ENTRY" then some "CALENDAR"
  else none

/-- The summary scenario exactly as documented: the nodes have `openMismatches`
and `mismatchStatuses` and no `refType` property. -/
def scenarioSummary : SummaryResponse :=
  { result :=
    { summaryMap :=
      [ ("BILL_TEXT",
          { refType := none, openMismatches := 5,
            mismatchStatuses := { NEW := some 3, EXISTING := some 2, RESOLVED := none } }),
        ("CALENDAR_ENTRY",
          { refType := none, openMismatches := 2,
            mismatchStatuses := { NEW := none, EXISTING := none, RESOLVED := some 2 } }) ] } }

/-- The summary scenario with each node carrying its reference type in its own
`refType` property, as `countsForContentType` expects. -/
def scenarioSummaryTagged : SummaryResponse :=
  { result :=
    { summaryMap :=
      [ ("BILL_TEXT",
          { refType := some "BILL_TEXT", openMismatches := 5,
            mismatchStatuses := { NEW := some 3, EXISTING := some 2, RESOLVED := none } }),
        ("CALENDAR_ENTRY",
          { refType := some "CALENDAR_ENTRY", openMismatches := 2,
            mismatchStatuses := { NEW := none, EXISTING := none, RESOLVED := some 2 } }) ] } }

/-- The sum of `openMismatches` over the entries of a `summaryMap` selected by
`p`, taken in order in the arithmetic of JavaScript numbers. -/
def openMismatchesWhere (p : String × RefTypeNode → Bool)
    (summaryMap : List (String × RefTypeNode)) : Int :=
  sumDouble ((summaryMap.filter p).map fun e => e.2.openMismatches)

/-- The sum over all nodes of a `summaryMap` of the quantity `f` of the node,
taken in order in the arithmetic of JavaScript numbers. -/
def sumOverNodes (f : RefTypeNode → Int) (summaryMap : List (String × RefTypeNode)) : Int :=
  sumDouble (summaryMap.map fun e => f e.2)

/-- The exact sum over all nodes of a `summaryMap` of the quantity `f` of the
node, as an integer. -/
def exactOverNodes (f : RefTypeNode → Int) (summaryMap : List (String × RefTypeNode)) : Int :=
  (summaryMap.map fun e => f e.2).sum

/-- A content-type mapping with two calendar reference types:
`LBDC_SCRAPED_BILL→BILL`, `LBDC_CALENDAR_ALERT→CALENDAR`,
`SENATE_SITE_CALENDAR→CALENDAR`, `LBDC_AGENDA_ALERT→AGENDA`. -/
def wideContentTypeMap : ContentTypeMap := fun refType =>
  if refType = "LBDC_SCRAPED_BILL" then some "BILL"
  else if refType = "LBDC_CALENDAR_ALERT" then some "CALENDAR"
  else if refType = "SENATE_SITE_CALENDAR" then some "CALENDAR"
  else if refType = "LBDC_AGENDA_ALERT" then some "AGENDA"
  else none

/-- A key with every property absent. -/
def emptyKey : MismatchKey :=
  { type := none, calNo := JSVal.undefined, version := JSVal.undefined,
    sequenceNo := JSVal.undefined, agendaId := none, addendum := none, committeeId := none,
    printNo := none, basePrintNo := JSVal.undefined, session := none }

/-- The raw record that has the given key, status, issue ids and ignore status
and no other property. -/
def recordWith (key : MismatchKey) (status : String) (items : List String)
    (ignoreStatus : String) : RawMismatch :=
  { mismatchId := JSVal.undefined, key := some key, contentType := JSVal.undefined,
    dataSource := JSVal.undefined, status := some status, mismatchType := JSVal.undefined,
    referenceType := JSVal.undefined, referenceDateTime := JSVal.undefined,
    observedDateTime := JSVal.undefined, reportDateTime := JSVal.undefined,
    issueIds := some { items := some items }, referenceData := JSVal.undefined,
    observedData := JSVal.undefined, ignoreStatus := some ignoreStatus }

/-- The raw record of the list scenario:
`{key:{type:"ACTIVE_LIST", calNo:"12", sequenceNo:3}, ignoreStatus:"NOT_IGNORED",
status:"NEW", issueIds:{items:["A","B"]}}`. -/
def scenarioRecord : RawMismatch :=
  recordWith { emptyKey with type := some "ACTIVE_LIST", calNo := JSVal.str "12",
                             sequenceNo := JSVal.num 3 }
    "NEW" ["A", "B"] "NOT_IGNORED"

/-- The title-cased form of a string in the words of the data model: the
string lower-cased, then its first character upper-cased. -/
def titleCase (s : String) : String :=
  match (toLowerCase s).data with
  | [] => ""
  | c :: cs => ⟨upperChars c ++ cs⟩

/-- A string made of ASCII characters only. -/
def isAscii (s : String) : Bool :=
  s.data.all fun c => decide (c.toNat < 128)

/-- Two sequences of ASCII characters are equal up to letter case: same length,
and at each position the same character or the two cases of one letter. -/
def sameLetters : List Char → List Char → Bool
  | [], [] => true
  | a :: as, b :: bs => (a.toLower == b.toLower) && sameLetters as bs
  | _, _ => false

/-- Two ASCII strings are equal up to letter case. -/
def equalUpToCase (s t : String) : Bool :=
  sameLetters s.data t.data

/-- The test of `parseMismatches` on a record: `ignoreStatus === 'NOT_IGNORED'`. -/
def notIgnored (mismatch : RawMismatch) : Bool :=
  decide (mismatch.ignoreStatus = some "NOT_IGNORED")

/-- The records of a response that are kept, in response order. -/
def retained (response : MismatchResponse) : List RawMismatch :=
  response.result.items.filter notIgnored

/-- The records of a response that are excluded. -/
def excluded (response : MismatchResponse) : List RawMismatch :=
  response.result.items.filter fun m => !notIgnored m

/-- An environment for evaluating the scenarios: a display map without
entries, and a formatter that renders every timestamp as `"Invalid date"`. -/
def sampleEnv : Env :=
  { referenceTypeDisplayMap := fun _ => JSVal.undefined
    momentFormat := fun _ => "Invalid date" }

/-- A response of two records with top-level `total` 2: the scenario record,
and the same record ignored permanently. -/
def scenarioResponse : MismatchResponse :=
  { total := JSVal.num 2
    result :=
      { items := [scenarioRecord, { scenarioRecord with ignoreStatus := some "IGNORE_PERMANENTLY" }] } }

/-! ## Page controller (`spotcheck-report-page.js`) -/

/-- An argument of a call: a primitive, or an array of primitives. -/
inductive JSArg where
  | val (v : JSVal)
  | arr (vs : List JSVal)
  deriving DecidableEq, Repr

/-- The value bound to the formal parameter at position `i` of a function called
with the arguments `args`: `undefined` past the last argument given. -/
def argAt (args : List JSArg) (i : Nat) : JSArg :=
  args.getD i (JSArg.val JSVal.undefined)

/-- The object `params` that `getMismatches` builds for the request. -/
structure MismatchParams where
  datasource : JSArg
  contentType : JSArg
  mismatchStatus : JSArg
  mismatchType : JSArg
  reportDate : JSArg
  limit : JSArg
  offset : JSArg
  orderBy : JSArg
  sort : JSArg
  deriving DecidableEq, Repr

/-- The `params` of `getMismatches(datasource, contentType, mismatchStatuses,
mismatchType, reportDate, limit, offset, orderBy, sort)` when it is called with the
arguments `args`: each formal parameter takes the argument at its position. -/
def getMismatchesParams (args : List JSArg) : MismatchParams :=
  let datasource := argAt args 0
  let contentType := argAt args 1
  let mismatchStatuses := argAt args 2
  let mismatchType := argAt args 3
  let reportDate := argAt args 4
  let limit := argAt args 5
  let offset := argAt args 6
  let orderBy := argAt args 7
  let sort := argAt args 8
  { datasource := datasource
    contentType := contentType
    mismatchStatus := mismatchStatuses
    mismatchType := mismatchType
    reportDate := reportDate
    limit := limit
    offset := offset
    orderBy := orderBy
    sort := sort }

/-- The part of `$scope` that `updateMismatches` reads:
`$scope.datasource.selected.value`, `$scope.status`, `$scope.selectedTab`, the
value of `$scope.date.endOf('day').format(isoFormat)`, and the values of
`$scope.pagination.getLimit()` and `$scope.pagination.getOffset()`. -/
structure ReportScope where
  datasourceSelectedValue : JSVal
  status : JSVal
  selectedTab : Nat
  dateEndOfDay : JSVal
  paginationLimit : JSVal
  paginationOffset : JSVal
  deriving DecidableEq, Repr

/-- The constant `contentTypes`. -/
def contentTypes : List String :=
  ["BILL", "CALENDAR", "AGENDA"]

/-- The function `selectedContentType()`: `contentTypes[$scope.selectedTab]`. -/
def selectedContentType (scope : ReportScope) : JSVal :=
  JSVal.ofOptStr (contentTypes.get? scope.selectedTab)

/-- The function `toMismatchStatus(status)`. -/
def toMismatchStatus (status : JSVal) : List JSVal :=
  if status = JSVal.str "OPEN" then
    [JSVal.str "NEW", JSVal.str "EXISTING"]
  else
    [status]

/-- The arguments of the call of `getMismatches` in `updateMismatches`. -/
def updateMismatchesArgs (scope : ReportScope) : List JSArg :=
  [ JSArg.val scope.datasourceSelectedValue,
    JSArg.val (selectedContentType scope),
    JSArg.arr (toMismatchStatus scope.status),
    JSArg.val scope.dateEndOfDay,
    JSArg.val scope.paginationLimit,
    JSArg.val scope.paginationOffset ]

/-- The query parameters of the request that `updateMismatches` issues. -/
def updateMismatchesParams (scope : ReportScope) : MismatchParams :=
  getMismatchesParams (updateMismatchesArgs scope)

/-- What reading a property of a `MismatchSummary` object gives: one of the
seven counters, something inherited from `Object.prototype`, or `undefined`. -/
inductive Member where
  | missing
  | counter (n : Int)
  | inherited (name : String)
  deriving DecidableEq, Repr

/-- The property names every object inherits from `Object.prototype`. -/
def objectPrototypeNames : List String :=
  ["constructor", "hasOwnProperty", "isPrototypeOf", "propertyIsEnumerable", "toLocaleString",
    "toString", "valueOf", "__proto__", "__defineGetter__", "__defineSetter__",
    "__lookupGetter__", "__lookupSetter__"]

/-- The expression `summary[name]` on an object built by `MismatchSummary`. -/
def summaryMember (summary : MismatchSummary) (name : String) : Member :=
  if name = "openCount" then Member.counter summary.openCount
  else if name = "newCount" then Member.counter summary.newCount
  else if name = "existingCount" then Member.counter summary.existingCount
  else if name = "resolvedCount" then Member.counter summary.resolvedCount
  else if name = "billCount" then Member.counter summary.billCount
  else if name = "calendarCount" then Member.counter summary.calendarCount
  else if name = "agendaCount" then Member.counter summary.agendaCount
  else if name ∈ objectPrototypeNames then Member.inherited name
  else Member.missing

/-- The function `$scope.getSummaryCountForContentType(contentType)`, for the
summary and status held by the scope; `index x status` is what `x[status]` gives
on a value `x` that is not `null` or `undefined`. -/
def getSummaryCountForContentType (index : Member → JSVal → JSVal)
    (summary : MismatchSummary) (status : JSVal) (contentType : String) : JSVal :=
  match summaryMember summary contentType with
  | Member.missing => JSVal.str ""
  | x => JSVal.or (index x status) (JSVal.str "")

/-! ## Further inputs and words of the specification -/

/-- The elements of a sequence of issue ids, in their order, joined with the
separator `", "`. -/
def joinIssues : List String → String
  | [] => ""
  | [a] => a
  | a :: b :: rest => a ++ ", " ++ joinIssues (b :: rest)

/-- A node of a `summaryMap` that carries its reference type `refType` and has
`openMismatches` equal to `n`, with no status bucket. -/
def taggedNode (refType : String) (n : Int) : String × RefTypeNode :=
  (refType, { refType := some refType, openMismatches := n,
              mismatchStatuses := { NEW := none, EXISTING := none, RESOLVED := none } })

/-- A response with non-negative counts whose total is past `2 ^ 53`: a bill
reference type with `2 ^ 53` open mismatches and two calendar reference types
with 1 each. -/
def largeSummary : SummaryResponse :=
  { result :=
    { summaryMap :=
      [ taggedNode "LBDC_SCRAPED_BILL" (2 ^ 53), taggedNode "LBDC_CALENDAR_ALERT" 1,
        taggedNode "SENATE_SITE_CALENDAR" 1 ] } }

/-- A controller state: first tab, status `'OPEN'`, ten items from offset 1. -/
def sampleScope : ReportScope :=
  { datasourceSelectedValue := JSVal.str "OPENLEG", status := JSVal.str "OPEN", selectedTab := 0,
    dateEndOfDay := JSVal.str "2017-03-01T23:59:59", paginationLimit := JSVal.num 10,
    paginationOffset := JSVal.num 1 }

/-- A record with an agenda id of number 3 and no addendum, not ignored. -/
def agendaWithoutAddendum : RawMismatch :=
  recordWith { emptyKey with agendaId := some ⟨some 3⟩ } "NEW" ["A"] "NOT_IGNORED"

/-! ## JavaScript numbers: lemmas -/

theorem excessBits_le_fuel (f a : Nat) : excessBits f a ≤ f := by
  induction f generalizing a with
  | zero => simp [excessBits]
  | succ f ih =>
    simp only [excessBits]
    split
    · omega
    · have := ih (a / 2); omega

theorem excessBits_le_of_lt (f a j : Nat) (h : a < 2 ^ (53 + j)) : excessBits f a ≤ j := by
  induction f generalizing a j with
  | zero => simp [excessBits]
  | succ f ih =>
    simp only [excessBits]
    split
    · omega
    · rename_i hge
      cases j with
      | zero => simp at h; omega
      | succ j =>
        have h2 : a / 2 < 2 ^ (53 + j) := by
          rw [Nat.div_lt_iff_lt_mul (by norm_num)]
          calc a < 2 ^ (53 + (j + 1)) := h
            _ = 2 ^ (53 + j) * 2 := by rw [← Nat.add_assoc, pow_succ]
        have := ih (a / 2) j h2
        omega

theorem excessBits_lower (f a : Nat) (h : 2 ^ 53 ≤ a) : 2 ^ (52 + excessBits f a) ≤ a := by
  induction f generalizing a with
  | zero =>
    simp only [excessBits, add_zero]
    calc 2 ^ 52 ≤ 2 ^ 53 := by norm_num
      _ ≤ a := h
  | succ f ih =>
    simp only [excessBits]
    rw [if_neg (by omega)]
    by_cases h2 : 2 ^ 53 ≤ a / 2
    · have := ih (a / 2) h2
      have h3 : 2 ^ (52 + (excessBits f (a / 2) + 1)) = 2 ^ (52 + excessBits f (a / 2)) * 2 := by
        rw [← Nat.add_assoc, pow_succ]
      rw [h3]
      have := Nat.div_mul_le_self a 2
      nlinarith
    · have h0 : excessBits f (a / 2) = 0 := by
        cases f with
        | zero => rfl
        | succ f => simp only [excessBits]; rw [if_pos (by omega)]
      rw [h0]
      exact h

theorem excessBits_upper (f a : Nat) (h : excessBits f a < f) :
    a < 2 ^ (53 + excessBits f a) := by
  induction f generalizing a with
  | zero => omega
  | succ f ih =>
    simp only [excessBits] at h ⊢
    split
    · simpa using ‹a < 2 ^ 53›
    · rename_i hge
      rw [if_neg hge] at h
      have h1 : excessBits f (a / 2) < f := by omega
      have := ih (a / 2) h1
      have h3 : 2 ^ (53 + (excessBits f (a / 2) + 1)) = 2 ^ (53 + excessBits f (a / 2)) * 2 := by
        rw [← Nat.add_assoc, pow_succ]
      rw [h3]
      omega

theorem roundNat_of_lt (a : Nat) (h : a < 2 ^ 53) : roundNat a = a := by
  unfold roundNat
  rw [if_pos h]

/-- A number that is a multiple of its unit in the last place is its own
rounding. -/
theorem roundNat_of_dvd (r : Nat) (hd : 2 ^ excessBits 971 r ∣ r) : roundNat r = r := by
  unfold roundNat
  split
  · rfl
  · have hpos : 0 < 2 ^ excessBits 971 r := pow_pos (by norm_num) _
    have hrem : r % 2 ^ excessBits 971 r = 0 := Nat.mod_eq_zero_of_dvd hd
    simp only [hrem, Nat.mul_zero]
    rw [if_pos hpos]
    exact Nat.div_mul_cancel hd

theorem roundNat_form (a : Nat) (h : 2 ^ 53 ≤ a) :
    ∃ q', roundNat a = q' * 2 ^ excessBits 971 a ∧ a / 2 ^ excessBits 971 a ≤ q' ∧
      q' ≤ a / 2 ^ excessBits 971 a + 1 := by
  unfold roundNat
  rw [if_neg (by omega)]
  simp only
  split
  · exact ⟨_, rfl, le_refl _, Nat.le_succ _⟩
  · split
    · exact ⟨_, rfl, Nat.le_succ _, le_refl _⟩
    · refine ⟨_, rfl, Nat.le_add_right _ _, ?_⟩
      have : a / 2 ^ excessBits 971 a % 2 < 2 := Nat.mod_lt _ (by norm_num)
      omega

/-- Rounding a rounded number changes nothing. -/
theorem roundNat_roundNat (a : Nat) : roundNat (roundNat a) = roundNat a := by
  by_cases h : a < 2 ^ 53
  · rw [roundNat_of_lt a h]
    exact roundNat_of_lt a h
  · have hge : 2 ^ 53 ≤ a := by omega
    obtain ⟨q', hr, hq1, hq2⟩ := roundNat_form a hge
    set k := excessBits 971 a with hk
    have hlow : 2 ^ 52 * 2 ^ k ≤ a := by
      rw [← pow_add]
      exact excessBits_lower 971 a hge
    have hupos : 0 < 2 ^ k := pow_pos (by norm_num) _
    have hq : 2 ^ 52 ≤ a / 2 ^ k := (Nat.le_div_iff_mul_le hupos).mpr hlow
    apply roundNat_of_dvd
    rw [hr]
    by_cases hkk : excessBits 971 (q' * 2 ^ k) ≤ k
    · exact Dvd.dvd.mul_left (pow_dvd_pow 2 hkk) q'
    · have hk971 : k < 971 := by
        have := excessBits_le_fuel 971 (q' * 2 ^ k)
        omega
      have hup : a < 2 ^ 53 * 2 ^ k := by
        rw [← pow_add]
        exact excessBits_upper 971 a hk971
      have hqlt : a / 2 ^ k < 2 ^ 53 := (Nat.div_lt_iff_lt_mul hupos).mpr hup
      have hq'le : q' ≤ 2 ^ 53 := by omega
      have hq'eq : q' = 2 ^ 53 := by
        by_contra hne
        have hlt : q' < 2 ^ 53 := lt_of_le_of_ne hq'le hne
        have : q' * 2 ^ k < 2 ^ (53 + k) := by
          rw [pow_add]
          exact Nat.mul_lt_mul_of_pos_right hlt hupos
        exact hkk (excessBits_le_of_lt 971 _ k this)
      have hpow : q' * 2 ^ k = 2 ^ (53 + k) := by
        rw [hq'eq, ← pow_add]
      rw [hpow] at hkk ⊢
      have hk1 : excessBits 971 (2 ^ (53 + k)) ≤ k + 1 := by
        apply excessBits_le_of_lt
        exact Nat.pow_lt_pow_right (by norm_num) (by omega)
      exact pow_dvd_pow 2 (by omega)

theorem roundNat_pos (a : Nat) (h : 0 < a) : 0 < roundNat a := by
  by_cases hlt : a < 2 ^ 53
  · rw [roundNat_of_lt _ hlt]; exact h
  · obtain ⟨q', hr, hq1, _⟩ := roundNat_form a (by omega)
    have hlow := excessBits_lower 971 a (by omega)
    rw [pow_add] at hlow
    have hupos : 0 < 2 ^ excessBits 971 a := pow_pos (by norm_num) _
    have hq : 2 ^ 52 ≤ a / 2 ^ excessBits 971 a := (Nat.le_div_iff_mul_le hupos).mpr hlow
    rw [hr]
    exact Nat.mul_pos (by omega) hupos

theorem roundDouble_roundDouble (x : Int) : roundDouble (roundDouble x) = roundDouble x := by
  cases x with
  | ofNat a =>
    simp only [roundDouble]
    rw [roundNat_roundNat]
  | negSucc a =>
    simp only [roundDouble]
    have hpos : 0 < roundNat (a + 1) := roundNat_pos _ (Nat.succ_pos a)
    obtain ⟨b, hb⟩ : ∃ b, roundNat (a + 1) = b + 1 := ⟨roundNat (a + 1) - 1, by omega⟩
    have e1 : -Int.ofNat (roundNat (a + 1)) = Int.negSucc b := by
      rw [hb]; rfl
    rw [e1]
    simp only [roundDouble]
    rw [← hb, roundNat_roundNat]
    exact e1

/-- Up to `2 ^ 53` in magnitude every integer is a binary64 value. -/
theorem roundDouble_of_natAbs_le (x : Int) (h : x.natAbs ≤ 2 ^ 53) : roundDouble x = x := by
  have h53 : roundNat (2 ^ 53) = 2 ^ 53 := by decide
  have hn : ∀ a : Nat, a ≤ 2 ^ 53 → roundNat a = a := by
    intro a ha
    rcases Nat.lt_or_eq_of_le ha with hlt | heq
    · exact roundNat_of_lt a hlt
    · rw [heq]; exact h53
  cases x with
  | ofNat a =>
    simp only [roundDouble]
    rw [hn a (by simpa using h)]
  | negSucc a =>
    simp only [roundDouble]
    rw [hn (a + 1) (by simpa [Int.natAbs] using h)]
    rfl

theorem roundDouble_nonneg (x : Int) (h : 0 ≤ x) : 0 ≤ roundDouble x := by
  cases x with
  | ofNat a => simp [roundDouble]
  | negSucc a => exact absurd h (by simp)

theorem roundDouble_of_nonneg_le (x : Int) (h0 : 0 ≤ x) (h : x ≤ 2 ^ 53) :
    roundDouble x = x := by
  apply roundDouble_of_natAbs_le
  omega

/-- Adding 0 to a binary64 value gives the value. -/
theorem addDouble_zero_of_round (a : Int) (h : roundDouble a = a) : addDouble a 0 = a := by
  unfold addDouble
  rw [add_zero, h]

theorem roundDouble_addDouble (a b : Int) : roundDouble (addDouble a b) = addDouble a b :=
  roundDouble_roundDouble _

/-- Summands equal to 0 can be left out of a running sum. -/
theorem foldl_addDouble_filter {α : Type} (p : α → Bool) (f : α → Int) (l : List α)
    (acc : Int) (hacc : roundDouble acc = acc) :
    (l.map fun e => if p e = true then f e else 0).foldl addDouble acc =
      ((l.filter p).map f).foldl addDouble acc := by
  induction l generalizing acc with
  | nil => rfl
  | cons e l ih =>
    by_cases hp : p e = true
    · simp only [List.map_cons, List.foldl_cons, List.filter_cons, hp, if_true]
      exact ih _ (roundDouble_addDouble _ _)
    · have hpf : p e = false := by simpa using hp
      simp only [List.map_cons, List.foldl_cons, List.filter_cons, hpf, Bool.false_eq_true,
        if_false]
      rw [addDouble_zero_of_round acc hacc]
      exact ih acc hacc

/-- A running sum of non-negative numbers that stays within `2 ^ 53` is the
exact sum. -/
theorem foldl_addDouble_exact (l : List Int) (acc : Int) (hacc : 0 ≤ acc)
    (hl : ∀ x ∈ l, 0 ≤ x) (hb : acc + l.sum ≤ 2 ^ 53) :
    l.foldl addDouble acc = acc + l.sum := by
  induction l generalizing acc with
  | nil => simp
  | cons x l ih =>
    have hx : 0 ≤ x := hl x (List.mem_cons_self _ _)
    have hrest : 0 ≤ l.sum := List.sum_nonneg (fun y hy => hl y (List.mem_cons_of_mem _ hy))
    simp only [List.sum_cons] at hb
    have hstep : addDouble acc x = acc + x := by
      unfold addDouble
      exact roundDouble_of_nonneg_le _ (by omega) (by omega)
    simp only [List.foldl_cons, List.sum_cons, hstep]
    rw [ih (acc + x) (by omega) (fun y hy => hl y (List.mem_cons_of_mem _ hy)) (by omega)]
    omega

theorem foldl_addDouble_nonneg (l : List Int) (acc : Int) (hacc : 0 ≤ acc)
    (hl : ∀ x ∈ l, 0 ≤ x) : 0 ≤ l.foldl addDouble acc := by
  induction l generalizing acc with
  | nil => exact hacc
  | cons x l ih =>
    simp only [List.foldl_cons]
    apply ih
    · exact roundDouble_nonneg _ (by have := hl x (List.mem_cons_self _ _); omega)
    · exact fun y hy => hl y (List.mem_cons_of_mem _ hy)

/-! ## Summary aggregation: lemmas -/

theorem orZero_eq_getD (v : Option Int) : orZero v = v.getD 0 := by
  cases v with
  | none => rfl
  | some x =>
    by_cases hx : x = 0
    · simp [orZero, hx]
    · simp [orZero, hx]

/-- The counters after the loop are the counters before it with the
contributions of the visited nodes added in order. -/
theorem foldl_summaryStep (m : ContentTypeMap) (l : List RefTypeNode) (acc : MismatchSummary) :
    l.foldl (summaryStep m) acc =
      { openCount := (l.map fun n => n.openMismatches).foldl addDouble acc.openCount
        newCount := (l.map fun n => orZero n.mismatchStatuses.NEW).foldl addDouble acc.newCount
        existingCount :=
          (l.map fun n => orZero n.mismatchStatuses.EXISTING).foldl addDouble acc.existingCount
        resolvedCount :=
          (l.map fun n => orZero n.mismatchStatuses.RESOLVED).foldl addDouble acc.resolvedCount
        billCount := (l.map fun n => countsForContentType m "BILL" n).foldl addDouble acc.billCount
        calendarCount :=
          (l.map fun n => countsForContentType m "CALENDAR" n).foldl addDouble acc.calendarCount
        agendaCount :=
          (l.map fun n => countsForContentType m "AGENDA" n).foldl addDouble acc.agendaCount } := by
  induction l generalizing acc with
  | nil => cases acc; simp
  | cons n l ih =>
    rw [List.foldl_cons, ih]
    simp [summaryStep]

theorem createSummary_eq (m : ContentTypeMap) (r : SummaryResponse) :
    createSummary m r =
      { openCount := sumOverNodes (fun n => n.openMismatches) r.result.summaryMap
        newCount := sumOverNodes (fun n => orZero n.mismatchStatuses.NEW) r.result.summaryMap
        existingCount :=
          sumOverNodes (fun n => orZero n.mismatchStatuses.EXISTING) r.result.summaryMap
        resolvedCount :=
          sumOverNodes (fun n => orZero n.mismatchStatuses.RESOLVED) r.result.summaryMap
        billCount := sumOverNodes (countsForContentType m "BILL") r.result.summaryMap
        calendarCount := sumOverNodes (countsForContentType m "CALENDAR") r.result.summaryMap
        agendaCount := sumOverNodes (countsForContentType m "AGENDA") r.result.summaryMap } := by
  unfold createSummary
  rw [foldl_summaryStep]
  simp [sumOverNodes, sumDouble, List.map_map, Function.comp_def]

/-- Summing a quantity that is `openMismatches` on the selected entries and 0 on
the others is summing `openMismatches` over the selected entries. -/
theorem sum_ite_eq_openMismatchesWhere (p : String × RefTypeNode → Bool)
    (l : List (String × RefTypeNode)) :
    sumDouble (l.map fun e => if p e = true then e.2.openMismatches else 0) =
      openMismatchesWhere p l := by
  unfold openMismatchesWhere sumDouble
  exact foldl_addDouble_filter p (fun e => e.2.openMismatches) l 0 (by decide)

theorem sumOverNodes_counts (m : ContentTypeMap) (c : String)
    (l : List (String × RefTypeNode)) :
    sumOverNodes (countsForContentType m c) l =
      openMismatchesWhere (fun e => decide (m (refTypeKey e.2) = some c)) l := by
  rw [← sum_ite_eq_openMismatchesWhere]
  simp [sumOverNodes, countsForContentType]

theorem openMismatchesWhere_congr (p q : String × RefTypeNode → Bool)
    (l : List (String × RefTypeNode)) (h : ∀ e ∈ l, p e = q e) :
    openMismatchesWhere p l = openMismatchesWhere q l := by
  unfold openMismatchesWhere
  rw [List.filter_congr h]

/-- A node gives its `openMismatches` to at most one content type. -/
theorem counts_node_cases (m : ContentTypeMap) (n : RefTypeNode) :
    (countsForContentType m "BILL" n = 0 ∧ countsForContentType m "CALENDAR" n = 0) ∨
    (countsForContentType m "BILL" n = 0 ∧ countsForContentType m "AGENDA" n = 0) ∨
    (countsForContentType m "CALENDAR" n = 0 ∧ countsForContentType m "AGENDA" n = 0) := by
  unfold countsForContentType
  cases hk : m (refTypeKey n) with
  | none => simp
  | some c =>
    by_cases hb : c = "BILL"
    · subst hb; right; right; simp
    · by_cases hc : c = "CALENDAR"
      · subst hc; right; left; simp
      · left; simp [hb, hc]

theorem countsForContentType_nonneg (m : ContentTypeMap) (c : String) (n : RefTypeNode)
    (h : 0 ≤ n.openMismatches) : 0 ≤ countsForContentType m c n := by
  unfold countsForContentType
  split
  · exact h
  · exact le_refl _

theorem countsForContentType_le (m : ContentTypeMap) (c : String) (n : RefTypeNode)
    (h : 0 ≤ n.openMismatches) : countsForContentType m c n ≤ n.openMismatches := by
  unfold countsForContentType
  split
  · exact le_refl _
  · exact h

/-- The three content-type contributions of a node with a non-negative
`openMismatches` add up to at most that `openMismatches`. -/
theorem counts_node_le (m : ContentTypeMap) (n : RefTypeNode) (h : 0 ≤ n.openMismatches) :
    countsForContentType m "BILL" n + countsForContentType m "CALENDAR" n +
      countsForContentType m "AGENDA" n ≤ n.openMismatches := by
  have hle := countsForContentType_le m
  rcases counts_node_cases m n with ⟨h1, h2⟩ | ⟨h1, h2⟩ | ⟨h1, h2⟩
  · rw [h1, h2]; simpa using hle "AGENDA" n h
  · rw [h1, h2]; simpa using hle "CALENDAR" n h
  · rw [h1, h2]; simpa using hle "BILL" n h

theorem exactOverNodes_counts_le (m : ContentTypeMap) (l : List (String × RefTypeNode))
    (h : ∀ e ∈ l, 0 ≤ e.2.openMismatches) :
    exactOverNodes (countsForContentType m "BILL") l +
      exactOverNodes (countsForContentType m "CALENDAR") l +
      exactOverNodes (countsForContentType m "AGENDA") l ≤
    exactOverNodes (fun n => n.openMismatches) l := by
  induction l with
  | nil => simp [exactOverNodes]
  | cons e l ih =>
    have hl := ih (fun x hx => h x (List.mem_cons_of_mem _ hx))
    have he := counts_node_le m e.2 (h e (List.mem_cons_self _ _))
    simp only [exactOverNodes, List.map_cons, List.sum_cons] at hl ⊢
    linarith

theorem exactOverNodes_nonneg (f : RefTypeNode → Int) (l : List (String × RefTypeNode))
    (h : ∀ e ∈ l, 0 ≤ f e.2) : 0 ≤ exactOverNodes f l := by
  unfold exactOverNodes
  apply List.sum_nonneg
  intro x hx
  obtain ⟨e, he, rfl⟩ := List.mem_map.mp hx
  exact h e he

theorem exactOverNodes_mono (f g : RefTypeNode → Int) (l : List (String × RefTypeNode))
    (h : ∀ e ∈ l, f e.2 ≤ g e.2) : exactOverNodes f l ≤ exactOverNodes g l := by
  induction l with
  | nil => simp [exactOverNodes]
  | cons e l ih =>
    have hl := ih (fun x hx => h x (List.mem_cons_of_mem _ hx))
    have he := h e (List.mem_cons_self _ _)
    simp only [exactOverNodes, List.map_cons, List.sum_cons] at hl ⊢
    linarith

/-- A running sum of non-negative quantities whose exact total is within
`2 ^ 53` is that exact total. -/
theorem sumOverNodes_eq_exact (f : RefTypeNode → Int) (l : List (String × RefTypeNode))
    (h : ∀ e ∈ l, 0 ≤ f e.2) (hb : exactOverNodes f l ≤ 2 ^ 53) :
    sumOverNodes f l = exactOverNodes f l := by
  unfold sumOverNodes sumDouble
  unfold exactOverNodes at hb ⊢
  rw [foldl_addDouble_exact _ 0 (le_refl _) _ (by simpa using hb)]
  · simp
  · intro x hx
    obtain ⟨e, he, rfl⟩ := List.mem_map.mp hx
    exact h e he

/-- Under a total of `openMismatches` within `2 ^ 53`, with no negative
`openMismatches`, the four counters fed by `openMismatches` are exact sums. -/
theorem createSummary_exact (m : ContentTypeMap) (r : SummaryResponse)
    (h : ∀ e ∈ r.result.summaryMap, 0 ≤ e.2.openMismatches)
    (hb : exactOverNodes (fun n => n.openMismatches) r.result.summaryMap ≤ 2 ^ 53) :
    (createSummary m r).openCount =
      exactOverNodes (fun n => n.openMismatches) r.result.summaryMap ∧
    (∀ c, sumOverNodes (countsForContentType m c) r.result.summaryMap =
      exactOverNodes (countsForContentType m c) r.result.summaryMap) := by
  rw [createSummary_eq]
  refine ⟨sumOverNodes_eq_exact _ _ h hb, ?_⟩
  intro c
  apply sumOverNodes_eq_exact
  · exact fun e he => countsForContentType_nonneg m c e.2 (h e he)
  · exact le_trans
      (exactOverNodes_mono _ _ _ (fun e he => countsForContentType_le m c e.2 (h e he))) hb

/-! ## Summary aggregation: the claims -/

/-- Claim C1, as stated, fails on the documented scenario: its nodes carry no
`refType` property, `countsForContentType` reads the reference type from that
property and not from the key of `summaryMap`, and so `billCount` and
`calendarCount` are 0 and not 5 and 2. -/
theorem createSummary_scenario_untagged :
    createSummary scenarioContentTypeMap scenarioSummary = ⟨7, 3, 2, 2, 0, 0, 0⟩ ∧
    createSummary scenarioContentTypeMap scenarioSummary ≠ ⟨7, 3, 2, 2, 5, 2, 0⟩ ∧
    (createSummary scenarioContentTypeMap scenarioSummary).billCount ≠
      openMismatchesWhere (fun e => decide (scenarioContentTypeMap e.1 = some "BILL"))
        scenarioSummary.result.summaryMap := by
  decide

/-- Claim C1 (amended): for every summaryMap and every content-type mapping,
`billCount`, `calendarCount` and `agendaCount` are the sums of `openMismatches`
over the entries whose node's own `refType` property maps to BILL, CALENDAR and
AGENDA; when every node's `refType` equals the key under which it is stored,
these are the sums over the entries whose key maps to the content type; and the
documented scenario, with each node carrying its `refType`, gives
`{7, 3, 2, 2, 5, 2, 0}`. -/
theorem createSummary_contentCounts :
    (∀ (m : ContentTypeMap) (r : SummaryResponse),
      (createSummary m r).billCount =
        openMismatchesWhere (fun e => decide (m (refTypeKey e.2) = some "BILL"))
          r.result.summaryMap ∧
      (createSummary m r).calendarCount =
        openMismatchesWhere (fun e => decide (m (refTypeKey e.2) = some "CALENDAR"))
          r.result.summaryMap ∧
      (createSummary m r).agendaCount =
        openMismatchesWhere (fun e => decide (m (refTypeKey e.2) = some "AGENDA"))
          r.result.summaryMap) ∧
    (∀ (m : ContentTypeMap) (r : SummaryResponse),
      (∀ e ∈ r.result.summaryMap, e.2.refType = some e.1) →
      (createSummary m r).billCount =
        openMismatchesWhere (fun e => decide (m e.1 = some "BILL")) r.result.summaryMap ∧
      (createSummary m r).calendarCount =
        openMismatchesWhere (fun e => decide (m e.1 = some "CALENDAR")) r.result.summaryMap ∧
      (createSummary m r).agendaCount =
        openMismatchesWhere (fun e => decide (m e.1 = some "AGENDA")) r.result.summaryMap) ∧
    createSummary scenarioContentTypeMap scenarioSummaryTagged = ⟨7, 3, 2, 2, 5, 2, 0⟩ := by
  have field : ∀ (m : ContentTypeMap) (r : SummaryResponse) (c : String),
      sumOverNodes (countsForContentType m c) r.result.summaryMap =
        openMismatchesWhere (fun e => decide (m (refTypeKey e.2) = some c))
          r.result.summaryMap := fun m r c => sumOverNodes_counts m c _
  refine ⟨?_, ?_, by decide⟩
  · intro m r
    rw [createSummary_eq]
    exact ⟨field m r _, field m r _, field m r _⟩
  · intro m r hkey
    have key : ∀ c : String,
        openMismatchesWhere (fun e => decide (m (refTypeKey e.2) = some c))
            r.result.summaryMap =
          openMismatchesWhere (fun e => decide (m e.1 = some c)) r.result.summaryMap := by
      intro c
      apply openMismatchesWhere_congr
      intro e he
      simp [refTypeKey, hkey e he, JSVal.ofOptStr, JSVal.toStr]
    rw [createSummary_eq]
    exact ⟨(field m r _).trans (key _), (field m r _).trans (key _),
      (field m r _).trans (key _)⟩

/-- Claim C3: `openCount` is the sum of `openMismatches` over all nodes, and
`newCount`, `existingCount`, `resolvedCount` are the sums over all nodes of
`mismatchStatuses.NEW`, `.EXISTING`, `.RESOLVED`, an absent bucket counting 0. -/
theorem createSummary_statusCounts (m : ContentTypeMap) (r : SummaryResponse) :
    (createSummary m r).openCount =
      sumOverNodes (fun n => n.openMismatches) r.result.summaryMap ∧
    (createSummary m r).newCount =
      sumOverNodes (fun n => n.mismatchStatuses.NEW.getD 0) r.result.summaryMap ∧
    (createSummary m r).existingCount =
      sumOverNodes (fun n => n.mismatchStatuses.EXISTING.getD 0) r.result.summaryMap ∧
    (createSummary m r).resolvedCount =
      sumOverNodes (fun n => n.mismatchStatuses.RESOLVED.getD 0) r.result.summaryMap := by
  rw [createSummary_eq]
  simp [orZero_eq_getD]

/-- Claim C4, as stated, fails: the counters are JavaScript numbers, and past
`2 ^ 53` a sum is rounded. With `2 ^ 53` open mismatches of a bill reference
type and 1 of each of two calendar reference types, nothing is negative,
`openCount` stays at `2 ^ 53` while `billCount` is `2 ^ 53` and `calendarCount`
is 2. -/
theorem createSummary_rounded_total :
    (∀ e ∈ largeSummary.result.summaryMap, 0 ≤ e.2.openMismatches) ∧
    (createSummary wideContentTypeMap largeSummary).openCount = 2 ^ 53 ∧
    (createSummary wideContentTypeMap largeSummary).billCount = 2 ^ 53 ∧
    (createSummary wideContentTypeMap largeSummary).calendarCount = 2 ∧
    (createSummary wideContentTypeMap largeSummary).agendaCount = 0 ∧
    ¬ ((createSummary wideContentTypeMap largeSummary).billCount +
        (createSummary wideContentTypeMap largeSummary).calendarCount +
        (createSummary wideContentTypeMap largeSummary).agendaCount ≤
      (createSummary wideContentTypeMap largeSummary).openCount) ∧
    ¬ (addDouble
        (addDouble (createSummary wideContentTypeMap largeSummary).billCount
          (createSummary wideContentTypeMap largeSummary).calendarCount)
        (createSummary wideContentTypeMap largeSummary).agendaCount ≤
      (createSummary wideContentTypeMap largeSummary).openCount) := by
  decide

/-- Claim C4 (amended): when every node has a non-negative `openMismatches` and
these add up to at most `2 ^ 53`, the summary satisfies
`billCount + calendarCount + agendaCount ≤ openCount`, whatever the
content-type mapping, the left side taken exactly or as a JavaScript sum. -/
theorem createSummary_contentCounts_le_open (m : ContentTypeMap) (r : SummaryResponse)
    (h : ∀ e ∈ r.result.summaryMap, 0 ≤ e.2.openMismatches)
    (hb : exactOverNodes (fun n => n.openMismatches) r.result.summaryMap ≤ 2 ^ 53) :
    (createSummary m r).billCount + (createSummary m r).calendarCount +
      (createSummary m r).agendaCount ≤ (createSummary m r).openCount ∧
    addDouble (addDouble (createSummary m r).billCount (createSummary m r).calendarCount)
      (createSummary m r).agendaCount ≤ (createSummary m r).openCount := by
  obtain ⟨hopen, hc⟩ := createSummary_exact m r h hb
  have hle := exactOverNodes_counts_le m r.result.summaryMap h
  have hnn : ∀ c, 0 ≤ exactOverNodes (countsForContentType m c) r.result.summaryMap :=
    fun c => exactOverNodes_nonneg _ _ (fun e he => countsForContentType_nonneg m c e.2 (h e he))
  have hexact : (createSummary m r).billCount + (createSummary m r).calendarCount +
      (createSummary m r).agendaCount ≤ (createSummary m r).openCount := by
    rw [hopen]
    rw [createSummary_eq]
    simp only [hc]
    exact hle
  refine ⟨hexact, ?_⟩
  have hb0 : 0 ≤ (createSummary m r).billCount := by
    rw [createSummary_eq]; simp only [hc]; exact hnn _
  have hc0 : 0 ≤ (createSummary m r).calendarCount := by
    rw [createSummary_eq]; simp only [hc]; exact hnn _
  have ha0 : 0 ≤ (createSummary m r).agendaCount := by
    rw [createSummary_eq]; simp only [hc]; exact hnn _
  have hop : (createSummary m r).openCount ≤ 2 ^ 53 := by
    rw [hopen]; exact hb
  have e1 : addDouble (createSummary m r).billCount (createSummary m r).calendarCount =
      (createSummary m r).billCount + (createSummary m r).calendarCount := by
    unfold addDouble
    exact roundDouble_of_nonneg_le _ (by omega) (by omega)
  rw [e1]
  have e2 : addDouble ((createSummary m r).billCount + (createSummary m r).calendarCount)
      (createSummary m r).agendaCount =
      (createSummary m r).billCount + (createSummary m r).calendarCount +
        (createSummary m r).agendaCount := by
    unfold addDouble
    exact roundDouble_of_nonneg_le _ (by omega) (by omega)
  rw [e2]
  exact hexact

/-- Claim C4 (amended) at the documented scenario with tagged nodes: the total
is 7 and 5 + 2 + 0 ≤ 7. -/
theorem createSummary_contentCounts_le_open_witness :
    (∀ e ∈ scenarioSummaryTagged.result.summaryMap, 0 ≤ e.2.openMismatches) ∧
    exactOverNodes (fun n => n.openMismatches) scenarioSummaryTagged.result.summaryMap = 7 ∧
    ((createSummary scenarioContentTypeMap scenarioSummaryTagged).billCount +
        (createSummary scenarioContentTypeMap scenarioSummaryTagged).calendarCount +
        (createSummary scenarioContentTypeMap scenarioSummaryTagged).agendaCount ≤
        (createSummary scenarioContentTypeMap scenarioSummaryTagged).openCount ∧
      addDouble
          (addDouble (createSummary scenarioContentTypeMap scenarioSummaryTagged).billCount
            (createSummary scenarioContentTypeMap scenarioSummaryTagged).calendarCount)
          (createSummary scenarioContentTypeMap scenarioSummaryTagged).agendaCount ≤
        (createSummary scenarioContentTypeMap scenarioSummaryTagged).openCount) ∧
    (createSummary scenarioContentTypeMap scenarioSummaryTagged).billCount = 5 :=
  ⟨by decide, by decide,
    createSummary_contentCounts_le_open scenarioContentTypeMap scenarioSummaryTagged
      (by decide) (by decide),
    by decide⟩

/-- Claim C10: for every node and every content-type mapping, at most one of
`countsForContentType('BILL', node)`, `countsForContentType('CALENDAR', node)`,
`countsForContentType('AGENDA', node)` is non-zero, and all three are 0 when the
node's reference type has no entry in the mapping. -/
theorem countsForContentType_exclusive (m : ContentTypeMap) (n : RefTypeNode) :
    ((countsForContentType m "BILL" n = 0 ∧ countsForContentType m "CALENDAR" n = 0) ∨
      (countsForContentType m "BILL" n = 0 ∧ countsForContentType m "AGENDA" n = 0) ∨
      (countsForContentType m "CALENDAR" n = 0 ∧ countsForContentType m "AGENDA" n = 0)) ∧
    (m (refTypeKey n) = none →
      countsForContentType m "BILL" n = 0 ∧ countsForContentType m "CALENDAR" n = 0 ∧
        countsForContentType m "AGENDA" n = 0) := by
  refine ⟨counts_node_cases m n, ?_⟩
  intro hnone
  simp [countsForContentType, hnone]

/-! ## Letter case: lemmas -/

/-- On an ASCII character the case mapping is the ASCII one, stays within
ASCII, and lower-casing undoes the upper-casing of a lower-cased character. -/
theorem lowerChar_ascii (c : Char) (h : c.toNat < 128) :
    lowerChar c = c.toLower ∧ (lowerChar c).toNat < 128 ∧
      lowerChar (lowerChar c) = lowerChar c ∧
      ∃ u, upperChars (lowerChar c) = [u] ∧ u.toNat < 128 ∧ lowerChar u = lowerChar c := by
  rw [← Char.ofNat_toNat c]
  generalize c.toNat = n at h
  interval_cases n <;> exact ⟨rfl, by decide, rfl, _, rfl, by decide, rfl⟩

theorem mem_ascii_of_isAscii (s : String) (h : isAscii s = true) :
    ∀ c ∈ s.data, c.toNat < 128 := by
  intro c hc
  have := List.all_eq_true.mp h c hc
  simpa using this

theorem map_lowerChar_ascii (l : List Char) (h : ∀ c ∈ l, c.toNat < 128) :
    l.map lowerChar = l.map Char.toLower := by
  apply List.map_congr_left
  intro c hc
  exact (lowerChar_ascii c (h c hc)).1

theorem map_lowerChar_idem (l : List Char) (h : ∀ c ∈ l, c.toNat < 128) :
    (l.map lowerChar).map lowerChar = l.map lowerChar := by
  rw [List.map_map]
  apply List.map_congr_left
  intro c hc
  exact (lowerChar_ascii c (h c hc)).2.2.1

/-- On a string, `patternWords` gives the title-cased form. -/
theorem patternWords_some (s : String) : patternWords (some s) = some (titleCase s) := by
  simp only [patternWords, titleCase, Option.some.injEq]
  apply String.ext
  cases h : (toLowerCase s).data with
  | nil => simp [charAt0, slice1, toUpperCase, h]
  | cons c cs => simp [charAt0, slice1, toUpperCase, h]

theorem sameLetters_map_toLower (a b : List Char) (h : sameLetters a b = true) :
    a.map Char.toLower = b.map Char.toLower := by
  induction a generalizing b with
  | nil =>
    cases b with
    | nil => rfl
    | cons y ys => simp [sameLetters] at h
  | cons x xs ih =>
    cases b with
    | nil => simp [sameLetters] at h
    | cons y ys =>
      simp only [sameLetters, Bool.and_eq_true, beq_iff_eq] at h
      simp [h.1, ih ys h.2]

theorem toLowerCase_of_equalUpToCase (s t : String) (hs : isAscii s = true)
    (ht : isAscii t = true) (h : equalUpToCase s t = true) :
    toLowerCase s = toLowerCase t := by
  unfold toLowerCase
  rw [map_lowerChar_ascii _ (mem_ascii_of_isAscii s hs),
    map_lowerChar_ascii _ (mem_ascii_of_isAscii t ht),
    sameLetters_map_toLower s.data t.data h]

theorem titleCase_congr (a b : String) (h : toLowerCase a = toLowerCase b) :
    titleCase a = titleCase b := by
  unfold titleCase
  rw [h]

/-- Lower-casing the title-cased form of an ASCII string gives the lower-cased
string. -/
theorem toLowerCase_titleCase (s : String) (hs : isAscii s = true) :
    toLowerCase (titleCase s) = toLowerCase s := by
  have hmem := mem_ascii_of_isAscii s hs
  cases hd : s.data with
  | nil =>
    have : toLowerCase s = "" := by
      unfold toLowerCase
      rw [hd]
      rfl
    unfold titleCase
    rw [this]
    rfl
  | cons c0 rest =>
    rw [hd] at hmem
    have hc0 := hmem c0 (List.mem_cons_self _ _)
    have hrest : ∀ c ∈ rest, c.toNat < 128 := fun c hc => hmem c (List.mem_cons_of_mem _ hc)
    obtain ⟨_, _, _, u, hu, _, hlu⟩ := lowerChar_ascii c0 hc0
    have hlow : toLowerCase s = ⟨lowerChar c0 :: rest.map lowerChar⟩ := by
      unfold toLowerCase
      rw [hd]
      rfl
    have htitle : titleCase s = ⟨u :: rest.map lowerChar⟩ := by
      unfold titleCase
      rw [hlow]
      simp [hu]
    rw [htitle, hlow]
    unfold toLowerCase
    simp only [List.map_cons, hlu, map_lowerChar_idem rest hrest]

theorem titleCase_titleCase (s : String) (hs : isAscii s = true) :
    titleCase (titleCase s) = titleCase s :=
  titleCase_congr _ _ (toLowerCase_titleCase s hs)

/-! ## Record normalisation: lemmas -/

theorem add_str_left (a : String) (b : JSVal) :
    (JSVal.str a).add b = JSVal.str (a ++ b.toStr) := by
  cases b <;> rfl

theorem add_str_right (a : JSVal) (b : String) :
    a.add (JSVal.str b) = JSVal.str (a.toStr ++ b) := by
  cases a <;> rfl

/-! ## Record normalisation: the claims -/

/-- Claim C7, as stated, fails: the case conversions of JavaScript follow
Unicode, where the upper case of `ß` is `SS`. The status `"ßa"` normalises to
`"SSa"`, and `"SSa"` normalises to `"Ssa"`: normalising a normalised status
changes it. -/
theorem parseStatus_not_idempotent :
    parseStatus (recordWith emptyKey "ßa" [] "NOT_IGNORED") = some "SSa" ∧
    parseStatus (recordWith emptyKey "SSa" [] "NOT_IGNORED") = some "Ssa" ∧
    parseStatus (recordWith emptyKey "SSa" [] "NOT_IGNORED") ≠
      parseStatus (recordWith emptyKey "ßa" [] "NOT_IGNORED") := by
  decide

/-- Claim C7 (amended): on statuses made of ASCII characters, normalisation
depends only on the letters of the raw status: for two such statuses equal up
to letter case `parseStatus` returns the same string, the lower-cased status
with its first character upper-cased, and normalising a normalised status
changes nothing. -/
theorem parseStatus_case_insensitive (m₁ m₂ : RawMismatch) (s t : String)
    (h₁ : m₁.status = some s) (h₂ : m₂.status = some t)
    (hs : isAscii s = true) (ht : isAscii t = true) (h : equalUpToCase s t = true) :
    parseStatus m₁ = some (titleCase s) ∧
    parseStatus m₂ = parseStatus m₁ ∧
    (∀ m₃ : RawMismatch, m₃.status = parseStatus m₁ → parseStatus m₃ = parseStatus m₁) := by
  have e₁ : parseStatus m₁ = some (titleCase s) := by
    rw [parseStatus, h₁, patternWords_some]
  have e₂ : parseStatus m₂ = some (titleCase t) := by
    rw [parseStatus, h₂, patternWords_some]
  refine ⟨e₁, ?_, ?_⟩
  · rw [e₁, e₂, titleCase_congr t s (toLowerCase_of_equalUpToCase s t hs ht h).symm]
  · intro m₃ h₃
    rw [e₁] at h₃ ⊢
    rw [parseStatus, h₃, patternWords_some, titleCase_titleCase s hs]

/-- Claim C7 (amended) at `"NEW"`, `"new"` and `"New"`: all three normalise to
`"New"`. -/
theorem parseStatus_case_insensitive_witness :
    isAscii "NEW" = true ∧ isAscii "new" = true ∧ equalUpToCase "NEW" "new" = true ∧
    (parseStatus (recordWith emptyKey "NEW" [] "NOT_IGNORED") = some (titleCase "NEW") ∧
      parseStatus (recordWith emptyKey "new" [] "NOT_IGNORED") =
        parseStatus (recordWith emptyKey "NEW" [] "NOT_IGNORED") ∧
      ∀ m₃ : RawMismatch,
        m₃.status = parseStatus (recordWith emptyKey "NEW" [] "NOT_IGNORED") →
        parseStatus m₃ = parseStatus (recordWith emptyKey "NEW" [] "NOT_IGNORED")) ∧
    titleCase "NEW" = "New" ∧
    parseStatus (recordWith emptyKey "new" [] "NOT_IGNORED") = some "New" ∧
    parseStatus (recordWith emptyKey "New" [] "NOT_IGNORED") = some "New" :=
  ⟨by decide, by decide, by decide,
    parseStatus_case_insensitive (recordWith emptyKey "NEW" [] "NOT_IGNORED")
      (recordWith emptyKey "new" [] "NOT_IGNORED") "NEW" "new" rfl rfl (by decide) (by decide)
      (by decide),
    by decide, by decide, by decide⟩

/-- Claim C5, as stated, fails: a calendar number that is present but falsy
(the number 0) gives `""` and not `"0Floor"`, because the guard is `!calNo`;
and for a supplemental calendar `calNo + key.version` adds two numbers instead
of writing one after the other. -/
theorem parseCalNo_falsy_present :
    parseCalNo
        (recordWith { emptyKey with type := some "FLOOR_CALENDAR", calNo := JSVal.num 0 }
          "NEW" [] "NOT_IGNORED") = some (JSVal.str "") ∧
    parseCalNo
        (recordWith { emptyKey with type := some "FLOOR_CALENDAR", calNo := JSVal.num 0 }
          "NEW" [] "NOT_IGNORED") ≠ some (JSVal.str "0Floor") ∧
    parseCalNo
        (recordWith { emptyKey with type := some "SUPPLEMENTAL_CALENDAR", calNo := JSVal.num 12,
                                    version := JSVal.num 3 }
          "NEW" [] "NOT_IGNORED") = some (JSVal.num 15) := by
  decide

/-- Claim C5 (amended): for every record with a key, `parseCalNo` gives `""`
when `key.calNo` is absent or otherwise falsy, whatever `key.type` is; for a
truthy `calNo`, `'FLOOR_CALENDAR'` gives `calNo` followed by `"Floor"`,
`'SUPPLEMENTAL_CALENDAR'` gives `calNo + key.version`, which is `calNo` followed
by `key.version` when one of the two is a string, `'ACTIVE_LIST'` gives
`calNo + "-" + key.sequenceNo`, and every other `key.type` gives the ordinary
value `"Error"`. -/
theorem parseCalNo_cases (m : RawMismatch) (key : MismatchKey) (hk : m.key = some key) :
    (key.calNo = JSVal.undefined → parseCalNo m = some (JSVal.str "")) ∧
    (key.calNo.truthy = false → parseCalNo m = some (JSVal.str "")) ∧
    (key.calNo.truthy = true →
      (key.type = some "FLOOR_CALENDAR" →
        parseCalNo m = some (JSVal.str (key.calNo.toStr ++ "Floor"))) ∧
      (key.type = some "SUPPLEMENTAL_CALENDAR" →
        parseCalNo m = some (key.calNo.add key.version) ∧
        (((∃ c, key.calNo = JSVal.str c) ∨ (∃ v, key.version = JSVal.str v)) →
          parseCalNo m = some (JSVal.str (key.calNo.toStr ++ key.version.toStr)))) ∧
      (key.type = some "ACTIVE_LIST" →
        parseCalNo m = some (JSVal.str (key.calNo.toStr ++ "-" ++ key.sequenceNo.toStr))) ∧
      (key.type ≠ some "FLOOR_CALENDAR" → key.type ≠ some "SUPPLEMENTAL_CALENDAR" →
        key.type ≠ some "ACTIVE_LIST" → parseCalNo m = some (JSVal.str "Error"))) := by
  have falsy : key.calNo.truthy = false → parseCalNo m = some (JSVal.str "") := by
    intro h
    simp [parseCalNo, hk, h]
  refine ⟨fun h => falsy (by rw [h]; rfl), falsy, ?_⟩
  intro ht
  refine ⟨?_, ?_, ?_, ?_⟩
  · intro h
    simp [parseCalNo, hk, ht, h, add_str_right]
  · intro h
    have e : parseCalNo m = some (key.calNo.add key.version) := by
      simp [parseCalNo, hk, ht, h]
    refine ⟨e, ?_⟩
    rintro (⟨c, hc⟩ | ⟨v, hv⟩)
    · rw [e, hc, add_str_left]; rfl
    · rw [e, hv, add_str_right]; rfl
  · intro h
    simp [parseCalNo, hk, ht, h, add_str_right, add_str_left, JSVal.toStr]
  · intro h1 h2 h3
    simp [parseCalNo, hk, ht, h1, h2, h3]

/-- Claim C5 (amended) at the list scenario: key
`{type:'ACTIVE_LIST', calNo:'12', sequenceNo:3}` gives `"12-3"`. -/
theorem parseCalNo_cases_witness :
    scenarioRecord.key =
      some { emptyKey with type := some "ACTIVE_LIST", calNo := JSVal.str "12",
                           sequenceNo := JSVal.num 3 } ∧
    parseCalNo scenarioRecord = some (JSVal.str "12-3") :=
  ⟨rfl,
    ((parseCalNo_cases scenarioRecord
      { emptyKey with type := some "ACTIVE_LIST", calNo := JSVal.str "12",
                      sequenceNo := JSVal.num 3 } rfl).2.2 (by decide)).2.2.1 (by decide)⟩

/-- Claim C6: for every record with a key, `parseAgendaNo` returns `""` when
`key.agendaId` is absent; `"N/A"` when `key.agendaId.number` is -1, whatever the
addendum; the bare agenda number when `key.addendum` is `'DEFAULT'`; and, for
any other addendum string, the agenda number followed by the title-cased
addendum. -/
theorem parseAgendaNo_rules (m : RawMismatch) (key : MismatchKey) (hk : m.key = some key) :
    (key.agendaId = none → parseAgendaNo m = some (JSVal.str "")) ∧
    (∀ a, key.agendaId = some a → a.number = some (-1) →
      parseAgendaNo m = some (JSVal.str "N/A")) ∧
    (∀ a, key.agendaId = some a → a.number ≠ some (-1) → key.addendum = some "DEFAULT" →
      parseAgendaNo m = some (JSVal.ofOptInt a.number)) ∧
    (∀ a s, key.agendaId = some a → a.number ≠ some (-1) → key.addendum = some s →
      s ≠ "DEFAULT" →
      parseAgendaNo m = some (JSVal.str ((JSVal.ofOptInt a.number).toStr ++ titleCase s))) := by
  refine ⟨?_, ?_, ?_, ?_⟩
  · intro h
    simp [parseAgendaNo, hk, h]
  · intro a h hn
    simp [parseAgendaNo, hk, h, hn]
  · intro a h hn hd
    simp [parseAgendaNo, hk, h, hn, hd]
  · intro a s h hn hs hd
    simp [parseAgendaNo, hk, h, hn, hs, hd, patternWords_some, add_str_right]

/-- Claim C6 at agenda number 3: addendum `'AMENDMENT'` gives `"3Amendment"`;
`'DEFAULT'` gives the number 3; and number -1 with `'DEFAULT'` gives `"N/A"`. -/
theorem parseAgendaNo_rules_witness :
    parseAgendaNo
        (recordWith { emptyKey with agendaId := some ⟨some 3⟩, addendum := some "AMENDMENT" }
          "NEW" [] "NOT_IGNORED") = some (JSVal.str "3Amendment") ∧
    parseAgendaNo
        (recordWith { emptyKey with agendaId := some ⟨some 3⟩, addendum := some "DEFAULT" }
          "NEW" [] "NOT_IGNORED") = some (JSVal.num 3) ∧
    parseAgendaNo
        (recordWith { emptyKey with agendaId := some ⟨some (-1)⟩, addendum := some "DEFAULT" }
          "NEW" [] "NOT_IGNORED") = some (JSVal.str "N/A") :=
  ⟨(parseAgendaNo_rules
      (recordWith { emptyKey with agendaId := some ⟨some 3⟩, addendum := some "AMENDMENT" }
        "NEW" [] "NOT_IGNORED")
      { emptyKey with agendaId := some ⟨some 3⟩, addendum := some "AMENDMENT" } rfl).2.2.2
      ⟨some 3⟩ "AMENDMENT" rfl (by decide) rfl (by decide),
    by decide, by decide⟩

/-- A record with a key, a string status and an issue-id sequence is normalised
as soon as `parseAgendaNo` returns; the derived fields are the values of the
`parse` functions. -/
theorem createMismatch_of_agendaNo (env : Env) (m : RawMismatch) (key : MismatchKey)
    (s : String) (ids : IssueIds) (items : List String) (a : JSVal)
    (hk : m.key = some key) (hs : m.status = some s) (hi : m.issueIds = some ids)
    (hitems : ids.items = some items) (ha : parseAgendaNo m = some a) :
    ∃ d, createMismatch env m = some d ∧ d.agendaNo = a ∧
      some d.calNo = parseCalNo m ∧ some d.bill = parseBill m ∧
      some d.billId = parseBillId m ∧ some d.committee = parseCommittee m ∧
      d.status = titleCase s ∧ d.issue = String.intercalate ", " items ∧
      d.issueInput = String.intercalate ", " items := by
  have hst : parseStatus m = some (titleCase s) := by
    rw [parseStatus, hs, patternWords_some]
  have his : parseIssues m = some (String.intercalate ", " items) := by
    simp [parseIssues, hi, hitems]
  have hb : parseBill m =
      some (JSVal.or (JSVal.ofOptStr key.printNo) (JSVal.str "")) := by
    simp [parseBill, hk]
  obtain ⟨se, hse⟩ : ∃ se, parseSession m = some se := by
    simp only [parseSession, hk]
    cases key.session <;> simp
  have hbid : parseBillId m =
      some (((JSVal.or (JSVal.ofOptStr key.printNo) (JSVal.str "")).add (JSVal.str "-")).add
        se.year) := by
    simp [parseBillId, hb, hse]
  obtain ⟨c, hc⟩ : ∃ c, parseCalNo m = some c := by
    simp only [parseCalNo, hk]
    split_ifs <;> simp
  obtain ⟨ct, hct⟩ : ∃ ct, parseCalType m = some ct := by
    simp only [parseCalType, hk]
    cases key.type <;> simp
  have hbp : parseBasePrintNo m = some key.basePrintNo := by
    simp [parseBasePrintNo, hk]
  obtain ⟨co, hco⟩ : ∃ co, parseCommittee m = some co := by
    simp only [parseCommittee, hk]
    cases key.committeeId <;> simp
  simp only [createMismatch, hst, his, hb, hbid, hc, hct, hse, hbp, ha, hco,
    Option.bind_eq_bind, Option.some_bind, Option.pure_def]
  exact ⟨_, rfl, rfl, rfl, rfl, rfl, rfl, rfl, rfl, rfl⟩

/-- Claim C8: for every record that has a key, a status and an issue-id
sequence, `createMismatch` succeeds when `key.committeeId`, `key.agendaId`,
`key.calNo` and `key.printNo` are absent and yields committee, agendaNo, calNo
and bill `""`; when `key.committeeId` is present, committee is its name. -/
theorem createMismatch_absent_fields (env : Env) (m : RawMismatch) (key : MismatchKey)
    (s : String) (ids : IssueIds) (items : List String)
    (hk : m.key = some key) (hs : m.status = some s) (hi : m.issueIds = some ids)
    (hitems : ids.items = some items) :
    (key.committeeId = none → key.agendaId = none → key.calNo = JSVal.undefined →
      key.printNo = none →
      ∃ d, createMismatch env m = some d ∧ d.committee = JSVal.str "" ∧
        d.agendaNo = JSVal.str "" ∧ d.calNo = JSVal.str "" ∧ d.bill = JSVal.str "") ∧
    (∀ c, key.committeeId = some c →
      parseCommittee m = some c.name ∧
      (∀ d, createMismatch env m = some d → d.committee = c.name) ∧
      (key.agendaId = none → ∃ d, createMismatch env m = some d ∧ d.committee = c.name)) := by
  have hag : key.agendaId = none → parseAgendaNo m = some (JSVal.str "") := by
    intro h
    simp [parseAgendaNo, hk, h]
  refine ⟨?_, ?_⟩
  · intro hco hagenda hcal hprint
    obtain ⟨d, hd, h1, h2, h3, _, h5, _⟩ :=
      createMismatch_of_agendaNo env m key s ids items _ hk hs hi hitems (hag hagenda)
    refine ⟨d, hd, ?_, h1, ?_, ?_⟩
    · have : parseCommittee m = some (JSVal.str "") := by
        simp [parseCommittee, hk, hco]
      rw [this] at h5
      exact Option.some.inj h5
    · have : parseCalNo m = some (JSVal.str "") := by
        simp [parseCalNo, hk, hcal, JSVal.truthy]
      rw [this] at h2
      exact Option.some.inj h2
    · have : parseBill m = some (JSVal.str "") := by
        simp [parseBill, hk, hprint, JSVal.ofOptStr, JSVal.or, JSVal.truthy]
      rw [this] at h3
      exact Option.some.inj h3
  · intro c hc
    have hpc : parseCommittee m = some c.name := by
      simp [parseCommittee, hk, hc]
    have hall : ∀ d, createMismatch env m = some d → d.committee = c.name := by
      intro d hd
      cases hagno : parseAgendaNo m with
      | none =>
        simp [createMismatch, hagno] at hd
      | some a =>
        obtain ⟨d', hd', _, _, _, _, h5, _⟩ :=
          createMismatch_of_agendaNo env m key s ids items a hk hs hi hitems hagno
        rw [hd] at hd'
        cases hd'
        rw [hpc] at h5
        exact Option.some.inj h5
    refine ⟨hpc, hall, ?_⟩
    intro hagenda
    obtain ⟨d, hd, _⟩ :=
      createMismatch_of_agendaNo env m key s ids items _ hk hs hi hitems (hag hagenda)
    exact ⟨d, hd, hall d hd⟩

/-- Claim C8 at a record whose key has no property at all, and at one whose key
has only a committee. -/
theorem createMismatch_absent_fields_witness :
    (∃ d, createMismatch sampleEnv (recordWith emptyKey "NEW" ["A", "B"] "NOT_IGNORED") = some d ∧
      d.committee = JSVal.str "" ∧ d.agendaNo = JSVal.str "" ∧ d.calNo = JSVal.str "" ∧
      d.bill = JSVal.str "") ∧
    parseCommittee
        (recordWith { emptyKey with committeeId := some ⟨JSVal.str "Rules"⟩ }
          "NEW" ["A", "B"] "NOT_IGNORED") = some (JSVal.str "Rules") :=
  ⟨(createMismatch_absent_fields sampleEnv (recordWith emptyKey "NEW" ["A", "B"] "NOT_IGNORED")
      emptyKey "NEW" ⟨some ["A", "B"]⟩ ["A", "B"] rfl rfl rfl rfl).1 rfl rfl rfl rfl,
    by decide⟩

/-! ## The loop of `parseMismatches`: lemmas -/

/-- The loop returns exactly when every retained record is normalised, and then
it has appended the normalised records, in order, to `mismatches`. -/
theorem foldlM_parseStep (env : Env) (l : List RawMismatch) (acc res : MismatchResult) :
    l.foldlM (parseStep env) acc = some res ↔
      ∃ ds, (l.filter notIgnored).map (createMismatch env) = ds.map some ∧
        res = { acc with mismatches := acc.mismatches ++ ds } := by
  induction l generalizing acc with
  | nil =>
    constructor
    · intro h
      refine ⟨[], rfl, ?_⟩
      simp only [List.foldlM_nil, Option.pure_def, Option.some.injEq] at h
      simp [← h]
    · rintro ⟨ds, h1, h2⟩
      cases ds with
      | nil => simp [h2]
      | cons d ds => simp at h1
  | cons x l ih =>
    rw [List.foldlM_cons]
    by_cases hx : notIgnored x = true
    · have hx' : x.ignoreStatus = some "NOT_IGNORED" := by simpa [notIgnored] using hx
      cases hc : createMismatch env x with
      | none =>
        simp only [parseStep, hx', hc, if_true, Option.bind_eq_bind, Option.none_bind,
          List.filter_cons, hx, List.map_cons]
        constructor
        · intro h
          cases h
        · rintro ⟨ds, h1, _⟩
          cases ds <;> simp at h1
      | some d =>
        simp only [parseStep, hx', hc, if_true, Option.bind_eq_bind, Option.some_bind,
          List.filter_cons, hx, List.map_cons]
        rw [ih]
        constructor
        · rintro ⟨ds, h1, h2⟩
          exact ⟨d :: ds, by simp [h1], by simp [h2]⟩
        · rintro ⟨ds, h1, h2⟩
          cases ds with
          | nil => simp at h1
          | cons d' ds' =>
            simp only [List.map_cons, List.cons.injEq, Option.some.injEq] at h1
            obtain ⟨rfl, h1'⟩ := h1
            exact ⟨ds', h1', by simp [h2]⟩
    · have hx' : x.ignoreStatus ≠ some "NOT_IGNORED" := by simpa [notIgnored] using hx
      simp only [parseStep, hx', if_false, Option.bind_eq_bind, Option.some_bind,
        List.filter_cons, hx]
      exact ih acc

/-- What `parseMismatches` returns, in terms of the retained records. -/
theorem parseMismatches_eq_some_iff (env : Env) (r : MismatchResponse) (res : MismatchResult) :
    parseMismatches env r = some res ↔
      (retained r).map (createMismatch env) = res.mismatches.map some ∧
        res.pagination.total = r.total := by
  unfold parseMismatches retained
  simp only
  rw [foldlM_parseStep]
  constructor
  · rintro ⟨ds, h1, h2⟩
    subst h2
    simpa using h1
  · rintro ⟨h1, h2⟩
    refine ⟨res.mismatches, h1, ?_⟩
    cases res with
    | mk pg ms =>
      cases pg
      simp at h2
      simp [h2]

/-- A sequence of records each of which is normalised has a sequence of
normalised records. -/
theorem map_createMismatch_of_isSome (env : Env) (l : List RawMismatch)
    (h : ∀ m ∈ l, (createMismatch env m).isSome = true) :
    ∃ ds : List DisplayMismatch, l.map (createMismatch env) = ds.map some := by
  induction l with
  | nil => exact ⟨[], rfl⟩
  | cons x l ih =>
    obtain ⟨ds, hds⟩ := ih (fun m hm => h m (List.mem_cons_of_mem _ hm))
    obtain ⟨d, hd⟩ := Option.isSome_iff_exists.mp (h x (List.mem_cons_self _ _))
    exact ⟨d :: ds, by simp [hd, hds]⟩

/-! ## The loop of `parseMismatches`: the claims -/

/-- Claim C2: `parseMismatches(response).mismatches` is exactly the sequence
obtained by keeping, in response order, the items whose `ignoreStatus` is
`'NOT_IGNORED'` and applying `createMismatch` to each: when `createMismatch`
returns on each kept item the call returns that sequence, and whatever it
returns is that sequence; no record with another `ignoreStatus` is kept; and
`mismatches.length` plus the number of excluded records is `items.length`.
On the response made of the scenario record and an ignored copy of it, the
call returns the one normalised scenario record. -/
theorem parseMismatches_retained (env : Env) (r : MismatchResponse) :
    (∀ ds, (retained r).map (createMismatch env) = ds.map some →
      parseMismatches env r = some { pagination := { total := r.total }, mismatches := ds }) ∧
    (∀ res, parseMismatches env r = some res →
      (retained r).map (createMismatch env) = res.mismatches.map some ∧
      res.mismatches.length + (excluded r).length = r.result.items.length) ∧
    (∀ m ∈ retained r, m ∈ r.result.items ∧ m.ignoreStatus = some "NOT_IGNORED") ∧
    (retained r).Sublist r.result.items ∧
    (∃ d, createMismatch env scenarioRecord = some d ∧
      parseMismatches env scenarioResponse =
        some { pagination := { total := JSVal.num 2 }, mismatches := [d] } ∧
      d.calNo = JSVal.str "12-3" ∧ d.status = "New" ∧ d.issue = "A, B") := by
  refine ⟨?_, ?_, ?_, ?_, ?_⟩
  · intro ds h
    rw [parseMismatches_eq_some_iff]
    exact ⟨h, rfl⟩
  · intro res h
    rw [parseMismatches_eq_some_iff] at h
    refine ⟨h.1, ?_⟩
    have hlen : res.mismatches.length = (retained r).length := by
      have := congrArg List.length h.1
      simpa using this.symm
    rw [hlen, List.length_eq_length_filter_add (l := r.result.items) notIgnored]
    rfl
  · intro m hm
    have := List.mem_filter.mp hm
    exact ⟨this.1, by simpa [notIgnored] using this.2⟩
  · exact List.filter_sublist _
  · exact ⟨_, rfl, rfl, rfl, rfl, rfl⟩

/-- Claim C9: whatever `parseMismatches` returns has `pagination.total` equal to
the top-level `total` of the response, and it returns as soon as every kept
record is normalised; the total does not depend on the records filtered out, so
it is not in general the length of `mismatches`: a response with total 2, one
kept and one ignored record gives total 2 and one mismatch. -/
theorem parseMismatches_pagination_total (env : Env) (r : MismatchResponse) :
    (∀ res, parseMismatches env r = some res → res.pagination.total = r.total) ∧
    ((∀ m ∈ retained r, (createMismatch env m).isSome = true) →
      ∃ res, parseMismatches env r = some res ∧ res.pagination.total = r.total) ∧
    (∃ res, parseMismatches env scenarioResponse = some res ∧
      res.pagination.total = JSVal.num 2 ∧ res.mismatches.length = 1) := by
  refine ⟨?_, ?_, ?_⟩
  · intro res h
    exact ((parseMismatches_eq_some_iff env r res).mp h).2
  · intro h
    obtain ⟨ds, hds⟩ := map_createMismatch_of_isSome env (retained r) h
    exact ⟨{ pagination := { total := r.total }, mismatches := ds },
      (parseMismatches_eq_some_iff env r _).mpr ⟨hds, rfl⟩, rfl⟩
  · exact ⟨_, rfl, rfl, rfl⟩

/-! ## Issue ids and bill ids: lemmas -/

theorem intercalate_go_append (sep : String) (l : List String) (acc x : String) :
    String.intercalate.go (acc ++ x) sep l = acc ++ String.intercalate.go x sep l := by
  induction l generalizing x with
  | nil => rfl
  | cons c l ih =>
    simp only [String.intercalate.go]
    rw [← ih (x ++ sep ++ c)]
    simp [String.append_assoc]

/-- Joining with `join(', ')` puts the elements one after the other, in order,
with `", "` between two neighbours. -/
theorem intercalate_eq_joinIssues (l : List String) :
    String.intercalate ", " l = joinIssues l := by
  induction l with
  | nil => rfl
  | cons a l ih =>
    cases l with
    | nil => rfl
    | cons b rest =>
      have h : String.intercalate ", " (a :: b :: rest) =
          a ++ ", " ++ String.intercalate ", " (b :: rest) := by
        simp only [String.intercalate, String.intercalate.go]
        rw [intercalate_go_append]
      rw [h, ih]
      rfl

/-- When `createMismatch` returns, each derived field is the value of its
`parse` function. -/
theorem createMismatch_fields (env : Env) (m : RawMismatch) (d : DisplayMismatch)
    (h : createMismatch env m = some d) :
    parseStatus m = some d.status ∧ parseIssues m = some d.issue ∧
    parseIssues m = some d.issueInput ∧ parseBill m = some d.bill ∧
    parseBillId m = some d.billId ∧ parseCalNo m = some d.calNo ∧
    parseSession m = some d.session ∧ parseAgendaNo m = some d.agendaNo ∧
    parseCommittee m = some d.committee := by
  simp only [createMismatch, Option.bind_eq_bind, Option.bind_eq_some, Option.pure_def,
    Option.some.injEq] at h
  obtain ⟨st, hst, is, his, ii, hii, b, hb, bi, hbi, c, hc, ct, _, se, hse, bp, _, a, ha,
    co, hco, rfl⟩ := h
  exact ⟨hst, his, hii, hb, hbi, hc, hse, ha, hco⟩

theorem parseBill_of_key (m : RawMismatch) (key : MismatchKey) (hk : m.key = some key) :
    parseBill m = some (JSVal.str (key.printNo.getD "")) := by
  simp only [parseBill, hk, Option.map_some', Option.some.injEq]
  cases hp : key.printNo with
  | none => rfl
  | some p =>
    by_cases he : p = ""
    · subst he; rfl
    · simp [JSVal.or, JSVal.ofOptStr, JSVal.truthy, he]

theorem parseBillId_of_key (m : RawMismatch) (key : MismatchKey) (hk : m.key = some key) :
    parseBillId m =
      some (JSVal.str (key.printNo.getD "" ++ "-" ++
        ((key.session.map fun se => se.year).getD JSVal.undefined).toStr)) := by
  have hb := parseBill_of_key m key hk
  have hs : parseSession m = some ⟨(key.session.map fun se => se.year).getD JSVal.undefined⟩ := by
    simp only [parseSession, hk]
    cases key.session <;> rfl
  simp only [parseBillId, hb, hs, add_str_left, add_str_right, JSVal.toStr]

/-! ## Issue ids and bill ids: the claims -/

/-- Claim C11: for every raw record with an issue-id sequence, the display
fields `issue` and `issueInput` are equal, and both are the elements of
`issueIds.items`, in their order, joined with `", "`: the empty string for an
empty sequence, the element itself for a sequence of one. -/
theorem createMismatch_issue (env : Env) (m : RawMismatch) (ids : IssueIds)
    (items : List String) (hi : m.issueIds = some ids) (hitems : ids.items = some items) :
    parseIssues m = some (joinIssues items) ∧
    (∀ d, createMismatch env m = some d →
      d.issue = d.issueInput ∧ d.issue = joinIssues items) ∧
    (∀ key s, m.key = some key → m.status = some s → (parseAgendaNo m).isSome = true →
      ∃ d, createMismatch env m = some d ∧ d.issue = joinIssues items ∧
        d.issueInput = joinIssues items) ∧
    joinIssues [] = "" ∧ (∀ a, joinIssues [a] = a) := by
  have hp : parseIssues m = some (joinIssues items) := by
    simp [parseIssues, hi, hitems, intercalate_eq_joinIssues]
  have hall : ∀ d, createMismatch env m = some d →
      d.issue = d.issueInput ∧ d.issue = joinIssues items := by
    intro d hd
    obtain ⟨_, h1, h2, _⟩ := createMismatch_fields env m d hd
    rw [hp] at h1 h2
    have e1 := Option.some.inj h1
    have e2 := Option.some.inj h2
    exact ⟨e1.symm.trans e2, e1.symm⟩
  refine ⟨hp, hall, ?_, rfl, fun _ => rfl⟩
  intro key s hk hs ha
  obtain ⟨a, ha⟩ := Option.isSome_iff_exists.mp ha
  obtain ⟨d, hd, _⟩ := createMismatch_of_agendaNo env m key s ids items a hk hs hi hitems ha
  exact ⟨d, hd, (hall d hd).2, (hall d hd).1 ▸ (hall d hd).2⟩

/-- Claim C11 at the list scenario: items `["A","B"]` give `"A, B"`. -/
theorem createMismatch_issue_witness :
    parseIssues scenarioRecord = some "A, B" ∧
    (∃ d, createMismatch sampleEnv scenarioRecord = some d ∧ d.issue = "A, B" ∧
      d.issueInput = "A, B") :=
  ⟨(createMismatch_issue sampleEnv scenarioRecord ⟨some ["A", "B"]⟩ ["A", "B"] rfl rfl).1,
    (createMismatch_issue sampleEnv scenarioRecord ⟨some ["A", "B"]⟩ ["A", "B"] rfl rfl).2.2.1
      _ "NEW" rfl rfl rfl⟩

/-- Claim C12: for every raw record with a key, the display field `bill` is
`key.printNo`, or `""` when the print number is absent, and `billId` is `bill`
followed by `"-"` followed by the year of `key.session`. -/
theorem createMismatch_bill (env : Env) (m : RawMismatch) (key : MismatchKey)
    (hk : m.key = some key) :
    parseBill m = some (JSVal.str (key.printNo.getD "")) ∧
    parseBillId m =
      some (JSVal.str (key.printNo.getD "" ++ "-" ++
        ((key.session.map fun se => se.year).getD JSVal.undefined).toStr)) ∧
    (∀ d, createMismatch env m = some d →
      d.bill = JSVal.str (key.printNo.getD "") ∧
      d.billId = JSVal.str (d.bill.toStr ++ "-" ++ d.session.year.toStr) ∧
      (∀ se, key.session = some se → d.session = se)) ∧
    (∀ s ids items, m.status = some s → m.issueIds = some ids → ids.items = some items →
      (parseAgendaNo m).isSome = true →
      ∃ d, createMismatch env m = some d ∧ d.bill = JSVal.str (key.printNo.getD "") ∧
        d.billId = JSVal.str (key.printNo.getD "" ++ "-" ++
          ((key.session.map fun se => se.year).getD JSVal.undefined).toStr)) := by
  have hb := parseBill_of_key m key hk
  have hbi := parseBillId_of_key m key hk
  refine ⟨hb, hbi, ?_, ?_⟩
  · intro d hd
    obtain ⟨_, _, _, h4, h5, _, h7, _⟩ := createMismatch_fields env m d hd
    rw [hb] at h4
    rw [hbi] at h5
    have e4 : d.bill = JSVal.str (key.printNo.getD "") := (Option.some.inj h4).symm
    have e7 : d.session = ⟨(key.session.map fun se => se.year).getD JSVal.undefined⟩ := by
      have : parseSession m =
          some ⟨(key.session.map fun se => se.year).getD JSVal.undefined⟩ := by
        simp only [parseSession, hk]
        cases key.session <;> rfl
      rw [this] at h7
      exact (Option.some.inj h7).symm
    refine ⟨e4, ?_, ?_⟩
    · rw [← Option.some.inj h5, e4, e7]
      rfl
    · intro se hse
      rw [e7, hse]
      rfl
  · intro s ids items hs hi hitems ha
    obtain ⟨a, ha⟩ := Option.isSome_iff_exists.mp ha
    obtain ⟨d, hd, _, _, h3, h4, _⟩ :=
      createMismatch_of_agendaNo env m key s ids items a hk hs hi hitems ha
    rw [hb] at h3
    rw [hbi] at h4
    exact ⟨d, hd, Option.some.inj h3, Option.some.inj h4⟩

/-- Claim C12 at print number `"S1234"` of session year 2017: `bill` is
`"S1234"` and `billId` is `"S1234-2017"`; without a print number `bill` is `""`. -/
theorem createMismatch_bill_witness :
    parseBill
        (recordWith { emptyKey with printNo := some "S1234", session := some ⟨JSVal.num 2017⟩ }
          "NEW" [] "NOT_IGNORED") = some (JSVal.str "S1234") ∧
    parseBillId
        (recordWith { emptyKey with printNo := some "S1234", session := some ⟨JSVal.num 2017⟩ }
          "NEW" [] "NOT_IGNORED") = some (JSVal.str "S1234-2017") ∧
    parseBill (recordWith emptyKey "NEW" [] "NOT_IGNORED") = some (JSVal.str "") :=
  ⟨(createMismatch_bill sampleEnv
      (recordWith { emptyKey with printNo := some "S1234", session := some ⟨JSVal.num 2017⟩ }
        "NEW" [] "NOT_IGNORED")
      { emptyKey with printNo := some "S1234", session := some ⟨JSVal.num 2017⟩ } rfl).1,
    (createMismatch_bill sampleEnv
      (recordWith { emptyKey with printNo := some "S1234", session := some ⟨JSVal.num 2017⟩ }
        "NEW" [] "NOT_IGNORED")
      { emptyKey with printNo := some "S1234", session := some ⟨JSVal.num 2017⟩ } rfl).2.1,
    by decide⟩

/-! ## Summary aggregation: equality and signs -/

/-- A node whose three contributions add up to a non-zero `openMismatches` has
its reference type mapped to one of the three content types. -/
theorem node_mapped_of_counts_eq (m : ContentTypeMap) (n : RefTypeNode)
    (heq : countsForContentType m "BILL" n + countsForContentType m "CALENDAR" n +
      countsForContentType m "AGENDA" n = n.openMismatches)
    (hne : n.openMismatches ≠ 0) :
    m (refTypeKey n) = some "BILL" ∨ m (refTypeKey n) = some "CALENDAR" ∨
      m (refTypeKey n) = some "AGENDA" := by
  by_contra hcon
  simp only [not_or] at hcon
  obtain ⟨hb, hc, ha⟩ := hcon
  simp only [countsForContentType, if_neg hb, if_neg hc, if_neg ha, add_zero] at heq
  exact hne heq.symm

/-- When the exact sums agree and no `openMismatches` is negative, the
contributions agree node by node. -/
theorem counts_eq_of_sum_eq (m : ContentTypeMap) (l : List (String × RefTypeNode))
    (h : ∀ e ∈ l, 0 ≤ e.2.openMismatches)
    (heq : exactOverNodes (countsForContentType m "BILL") l +
      exactOverNodes (countsForContentType m "CALENDAR") l +
      exactOverNodes (countsForContentType m "AGENDA") l =
      exactOverNodes (fun n => n.openMismatches) l) :
    ∀ e ∈ l, countsForContentType m "BILL" e.2 + countsForContentType m "CALENDAR" e.2 +
      countsForContentType m "AGENDA" e.2 = e.2.openMismatches := by
  induction l with
  | nil => intro e he; cases he
  | cons x l ih =>
    have hl := exactOverNodes_counts_le m l (fun y hy => h y (List.mem_cons_of_mem _ hy))
    have hx := counts_node_le m x.2 (h x (List.mem_cons_self _ _))
    simp only [exactOverNodes, List.map_cons, List.sum_cons] at heq hl
    have e1 : countsForContentType m "BILL" x.2 + countsForContentType m "CALENDAR" x.2 +
        countsForContentType m "AGENDA" x.2 = x.2.openMismatches := by linarith
    have e2 : exactOverNodes (countsForContentType m "BILL") l +
        exactOverNodes (countsForContentType m "CALENDAR") l +
        exactOverNodes (countsForContentType m "AGENDA") l =
        exactOverNodes (fun n => n.openMismatches) l := by
      simp only [exactOverNodes]
      linarith
    intro e he
    rcases List.mem_cons.mp he with rfl | he'
    · exact e1
    · exact ih (fun y hy => h y (List.mem_cons_of_mem _ hy)) e2 e he'

theorem sumOverNodes_nonneg (f : RefTypeNode → Int) (l : List (String × RefTypeNode))
    (h : ∀ e ∈ l, 0 ≤ f e.2) : 0 ≤ sumOverNodes f l := by
  unfold sumOverNodes sumDouble
  apply foldl_addDouble_nonneg _ _ (le_refl _)
  intro x hx
  obtain ⟨e, he, rfl⟩ := List.mem_map.mp hx
  exact h e he

/-- Claim C13, as stated, fails: with a node of `openMismatches` 0 whose
reference type is not mapped the equality holds; so it does when two nodes with
unmapped reference types have `openMismatches` 5 and -5; so it does when a
node stored under an unmapped key carries a mapped `refType`; and so it does,
by rounding, when a mapped node has `2 ^ 53` and an unmapped one has 1. -/
theorem createSummary_equality_unmapped :
    ((createSummary scenarioContentTypeMap ⟨⟨[taggedNode "OTHER" 0]⟩⟩).billCount +
        (createSummary scenarioContentTypeMap ⟨⟨[taggedNode "OTHER" 0]⟩⟩).calendarCount +
        (createSummary scenarioContentTypeMap ⟨⟨[taggedNode "OTHER" 0]⟩⟩).agendaCount =
        (createSummary scenarioContentTypeMap ⟨⟨[taggedNode "OTHER" 0]⟩⟩).openCount ∧
      scenarioContentTypeMap "OTHER" = none) ∧
    ((createSummary scenarioContentTypeMap
          ⟨⟨[taggedNode "OTHER" 5, taggedNode "MORE" (-5)]⟩⟩).billCount +
        (createSummary scenarioContentTypeMap
          ⟨⟨[taggedNode "OTHER" 5, taggedNode "MORE" (-5)]⟩⟩).calendarCount +
        (createSummary scenarioContentTypeMap
          ⟨⟨[taggedNode "OTHER" 5, taggedNode "MORE" (-5)]⟩⟩).agendaCount =
        (createSummary scenarioContentTypeMap
          ⟨⟨[taggedNode "OTHER" 5, taggedNode "MORE" (-5)]⟩⟩).openCount ∧
      scenarioContentTypeMap "OTHER" = none ∧ scenarioContentTypeMap "MORE" = none) ∧
    ((createSummary scenarioContentTypeMap
          ⟨⟨[("OTHER", (taggedNode "BILL_TEXT" 5).2)]⟩⟩).billCount +
        (createSummary scenarioContentTypeMap
          ⟨⟨[("OTHER", (taggedNode "BILL_TEXT" 5).2)]⟩⟩).calendarCount +
        (createSummary scenarioContentTypeMap
          ⟨⟨[("OTHER", (taggedNode "BILL_TEXT" 5).2)]⟩⟩).agendaCount =
        (createSummary scenarioContentTypeMap
          ⟨⟨[("OTHER", (taggedNode "BILL_TEXT" 5).2)]⟩⟩).openCount ∧
      scenarioContentTypeMap "OTHER" = none) ∧
    ((createSummary scenarioContentTypeMap
          ⟨⟨[taggedNode "BILL_TEXT" (2 ^ 53), taggedNode "OTHER" 1]⟩⟩).billCount +
        (createSummary scenarioContentTypeMap
          ⟨⟨[taggedNode "BILL_TEXT" (2 ^ 53), taggedNode "OTHER" 1]⟩⟩).calendarCount +
        (createSummary scenarioContentTypeMap
          ⟨⟨[taggedNode "BILL_TEXT" (2 ^ 53), taggedNode "OTHER" 1]⟩⟩).agendaCount =
        (createSummary scenarioContentTypeMap
          ⟨⟨[taggedNode "BILL_TEXT" (2 ^ 53), taggedNode "OTHER" 1]⟩⟩).openCount ∧
      (createSummary scenarioContentTypeMap
          ⟨⟨[taggedNode "BILL_TEXT" (2 ^ 53), taggedNode "OTHER" 1]⟩⟩).openCount = 2 ^ 53 ∧
      scenarioContentTypeMap "OTHER" = none) := by
  decide

/-- Claim C13 (amended): if no node has a negative `openMismatches`, these add
up to at most `2 ^ 53`, and the summary satisfies
`billCount + calendarCount + agendaCount = openCount`, then every node with a
non-zero `openMismatches` has its own `refType` mapped to one of BILL,
CALENDAR, AGENDA; where the node's `refType` is the key under which it is
stored, that key is mapped. -/
theorem createSummary_equality_mapped (m : ContentTypeMap) (r : SummaryResponse)
    (hnn : ∀ e ∈ r.result.summaryMap, 0 ≤ e.2.openMismatches)
    (hb : exactOverNodes (fun n => n.openMismatches) r.result.summaryMap ≤ 2 ^ 53)
    (heq : (createSummary m r).billCount + (createSummary m r).calendarCount +
      (createSummary m r).agendaCount = (createSummary m r).openCount) :
    (∀ e ∈ r.result.summaryMap, e.2.openMismatches ≠ 0 →
      m (refTypeKey e.2) = some "BILL" ∨ m (refTypeKey e.2) = some "CALENDAR" ∨
        m (refTypeKey e.2) = some "AGENDA") ∧
    (∀ e ∈ r.result.summaryMap, e.2.refType = some e.1 → e.2.openMismatches ≠ 0 →
      m e.1 = some "BILL" ∨ m e.1 = some "CALENDAR" ∨ m e.1 = some "AGENDA") := by
  obtain ⟨hopen, hc⟩ := createSummary_exact m r hnn hb
  rw [hopen] at heq
  rw [createSummary_eq] at heq
  simp only [hc] at heq
  have hnode := counts_eq_of_sum_eq m r.result.summaryMap hnn heq
  have hmapped : ∀ e ∈ r.result.summaryMap, e.2.openMismatches ≠ 0 →
      m (refTypeKey e.2) = some "BILL" ∨ m (refTypeKey e.2) = some "CALENDAR" ∨
        m (refTypeKey e.2) = some "AGENDA" :=
    fun e he hne => node_mapped_of_counts_eq m e.2 (hnode e he) hne
  refine ⟨hmapped, ?_⟩
  intro e he hkey hne
  have hk : refTypeKey e.2 = e.1 := by
    simp [refTypeKey, hkey, JSVal.ofOptStr, JSVal.toStr]
  have := hmapped e he hne
  rwa [hk] at this

/-- Claim C13 (amended) at the documented scenario with tagged nodes: 5 + 2 + 0
is 7, and both `BILL_TEXT` and `CALENDAR_ENTRY` are mapped. -/
theorem createSummary_equality_mapped_witness :
    (∀ e ∈ scenarioSummaryTagged.result.summaryMap, e.2.openMismatches ≠ 0 →
      scenarioContentTypeMap (refTypeKey e.2) = some "BILL" ∨
        scenarioContentTypeMap (refTypeKey e.2) = some "CALENDAR" ∨
        scenarioContentTypeMap (refTypeKey e.2) = some "AGENDA") ∧
    (∀ e ∈ scenarioSummaryTagged.result.summaryMap, e.2.refType = some e.1 →
      e.2.openMismatches ≠ 0 →
      scenarioContentTypeMap e.1 = some "BILL" ∨ scenarioContentTypeMap e.1 = some "CALENDAR" ∨
        scenarioContentTypeMap e.1 = some "AGENDA") :=
  createSummary_equality_mapped scenarioContentTypeMap scenarioSummaryTagged
    (by decide) (by decide) (by decide)

/-- Claim C14, as stated, fails: nothing in `createSummary` checks signs, so a
node with `openMismatches` -1 of a bill reference type gives `openCount` and
`billCount` -1. -/
theorem createSummary_negative :
    (createSummary scenarioContentTypeMap ⟨⟨[taggedNode "BILL_TEXT" (-1)]⟩⟩).openCount = -1 ∧
    (createSummary scenarioContentTypeMap ⟨⟨[taggedNode "BILL_TEXT" (-1)]⟩⟩).billCount = -1 ∧
    ¬ 0 ≤ (createSummary scenarioContentTypeMap ⟨⟨[taggedNode "BILL_TEXT" (-1)]⟩⟩).openCount := by
  decide

/-- Claim C14 (amended): when every node of the response has non-negative
`openMismatches` and non-negative status buckets, all seven counters of the
summary returned by `createSummary` are greater than or equal to 0. -/
theorem createSummary_nonneg (m : ContentTypeMap) (r : SummaryResponse)
    (h : ∀ e ∈ r.result.summaryMap,
      0 ≤ e.2.openMismatches ∧ 0 ≤ e.2.mismatchStatuses.NEW.getD 0 ∧
        0 ≤ e.2.mismatchStatuses.EXISTING.getD 0 ∧ 0 ≤ e.2.mismatchStatuses.RESOLVED.getD 0) :
    0 ≤ (createSummary m r).openCount ∧ 0 ≤ (createSummary m r).newCount ∧
    0 ≤ (createSummary m r).existingCount ∧ 0 ≤ (createSummary m r).resolvedCount ∧
    0 ≤ (createSummary m r).billCount ∧ 0 ≤ (createSummary m r).calendarCount ∧
    0 ≤ (createSummary m r).agendaCount := by
  rw [createSummary_eq]
  refine ⟨?_, ?_, ?_, ?_, ?_, ?_, ?_⟩
  · exact sumOverNodes_nonneg _ _ (fun e he => (h e he).1)
  · exact sumOverNodes_nonneg (fun n => orZero n.mismatchStatuses.NEW) _
      (fun e he => by simp only [orZero_eq_getD]; exact (h e he).2.1)
  · exact sumOverNodes_nonneg (fun n => orZero n.mismatchStatuses.EXISTING) _
      (fun e he => by simp only [orZero_eq_getD]; exact (h e he).2.2.1)
  · exact sumOverNodes_nonneg (fun n => orZero n.mismatchStatuses.RESOLVED) _
      (fun e he => by simp only [orZero_eq_getD]; exact (h e he).2.2.2)
  · exact sumOverNodes_nonneg _ _ (fun e he => countsForContentType_nonneg m _ _ (h e he).1)
  · exact sumOverNodes_nonneg _ _ (fun e he => countsForContentType_nonneg m _ _ (h e he).1)
  · exact sumOverNodes_nonneg _ _ (fun e he => countsForContentType_nonneg m _ _ (h e he).1)

/-- Claim C14 (amended) at the documented scenario with tagged nodes. -/
theorem createSummary_nonneg_witness :
    0 ≤ (createSummary scenarioContentTypeMap scenarioSummaryTagged).openCount ∧
    0 ≤ (createSummary scenarioContentTypeMap scenarioSummaryTagged).newCount ∧
    0 ≤ (createSummary scenarioContentTypeMap scenarioSummaryTagged).existingCount ∧
    0 ≤ (createSummary scenarioContentTypeMap scenarioSummaryTagged).resolvedCount ∧
    0 ≤ (createSummary scenarioContentTypeMap scenarioSummaryTagged).billCount ∧
    0 ≤ (createSummary scenarioContentTypeMap scenarioSummaryTagged).calendarCount ∧
    0 ≤ (createSummary scenarioContentTypeMap scenarioSummaryTagged).agendaCount :=
  createSummary_nonneg scenarioContentTypeMap scenarioSummaryTagged (by decide)

/-! ## Page controller: the claims -/

/-- Claim C15: `toMismatchStatus` returns exactly `['NEW', 'EXISTING']` for the
status `'OPEN'`, and the one-element array `[s]` for every other status `s`. -/
theorem toMismatchStatus_cases :
    toMismatchStatus (JSVal.str "OPEN") = [JSVal.str "NEW", JSVal.str "EXISTING"] ∧
    (∀ s : JSVal, s ≠ JSVal.str "OPEN" → toMismatchStatus s = [s]) := by
  refine ⟨rfl, ?_⟩
  intro s hs
  simp [toMismatchStatus, hs]

/-- Claim C16: `updateMismatches` calls `getMismatches` with six arguments
where nine are declared, so for every controller state the `params` of the
request have `mismatchType` equal to the formatted date, `reportDate` equal to
the pagination limit, `limit` equal to the pagination offset, and `offset`,
`orderBy` and `sort` undefined. -/
theorem updateMismatches_params_shifted (scope : ReportScope) :
    (updateMismatchesArgs scope).length = 6 ∧
    (updateMismatchesParams scope).datasource = JSArg.val scope.datasourceSelectedValue ∧
    (updateMismatchesParams scope).contentType = JSArg.val (selectedContentType scope) ∧
    (updateMismatchesParams scope).mismatchStatus =
      JSArg.arr (toMismatchStatus scope.status) ∧
    (updateMismatchesParams scope).mismatchType = JSArg.val scope.dateEndOfDay ∧
    (updateMismatchesParams scope).reportDate = JSArg.val scope.paginationLimit ∧
    (updateMismatchesParams scope).limit = JSArg.val scope.paginationOffset ∧
    (updateMismatchesParams scope).offset = JSArg.val JSVal.undefined ∧
    (updateMismatchesParams scope).orderBy = JSArg.val JSVal.undefined ∧
    (updateMismatchesParams scope).sort = JSArg.val JSVal.undefined :=
  ⟨rfl, rfl, rfl, rfl, rfl, rfl, rfl, rfl, rfl, rfl⟩

/-- A summary object has no property named after a content type. -/
theorem summaryMember_contentType (summary : MismatchSummary) (contentType : String)
    (h : contentType ∈ contentTypes) : summaryMember summary contentType = Member.missing := by
  simp only [contentTypes, List.mem_cons, List.mem_singleton, List.not_mem_nil, or_false] at h
  rcases h with rfl | rfl | rfl <;> rfl

/-- Claim C17: for every summary produced by `createSummary`, every content
type among BILL, CALENDAR, AGENDA and every selected status,
`getSummaryCountForContentType` returns the empty string. -/
theorem getSummaryCountForContentType_empty (index : Member → JSVal → JSVal)
    (m : ContentTypeMap) (r : SummaryResponse) (status : JSVal) (contentType : String)
    (h : contentType ∈ contentTypes) :
    getSummaryCountForContentType index (createSummary m r) status contentType =
      JSVal.str "" := by
  unfold getSummaryCountForContentType
  rw [summaryMember_contentType _ _ h]

/-- Claim C17 at the documented scenario with tagged nodes: `billCount` is 5,
and the count shown for BILL under status `'OPEN'` is the empty string. -/
theorem getSummaryCountForContentType_empty_witness :
    "BILL" ∈ contentTypes ∧
    getSummaryCountForContentType (fun _ _ => JSVal.undefined)
        (createSummary scenarioContentTypeMap scenarioSummaryTagged) (JSVal.str "OPEN") "BILL" =
      JSVal.str "" ∧
    (createSummary scenarioContentTypeMap scenarioSummaryTagged).billCount = 5 :=
  ⟨by decide,
    getSummaryCountForContentType_empty (fun _ _ => JSVal.undefined) scenarioContentTypeMap
      scenarioSummaryTagged (JSVal.str "OPEN") "BILL" (by decide),
    by decide⟩

/-- Claim C18: for a record that is not ignored, whose `key.agendaId` is
present with a number other than -1 and whose `key.addendum` is absent,
`parseAgendaNo` fails, hence `createMismatch` fails, and `parseMismatches`
fails on every response that contains the record: no mismatches are returned. -/
theorem parseMismatches_aborts_without_addendum (env : Env) (r : MismatchResponse)
    (m : RawMismatch) (key : MismatchKey) (a : AgendaId)
    (hm : m ∈ r.result.items) (hig : m.ignoreStatus = some "NOT_IGNORED")
    (hk : m.key = some key) (ha : key.agendaId = some a) (hn : a.number ≠ some (-1))
    (hadd : key.addendum = none) :
    patternWords key.addendum = none ∧ parseAgendaNo m = none ∧
    createMismatch env m = none ∧ parseMismatches env r = none := by
  have hp : patternWords key.addendum = none := by
    rw [hadd]; rfl
  have hag : parseAgendaNo m = none := by
    simp [parseAgendaNo, hk, ha, hn, hadd, patternWords]
  have hc : createMismatch env m = none := by
    cases h : createMismatch env m with
    | none => rfl
    | some d =>
      obtain ⟨_, _, _, _, _, _, _, h8, _⟩ := createMismatch_fields env m d h
      rw [hag] at h8
      cases h8
  refine ⟨hp, hag, hc, ?_⟩
  cases h : parseMismatches env r with
  | none => rfl
  | some res =>
    have hmap := ((parseMismatches_eq_some_iff env r res).mp h).1
    have hmem : m ∈ retained r := by
      apply List.mem_filter.mpr
      exact ⟨hm, by simp [notIgnored, hig]⟩
    have : createMismatch env m ∈ (retained r).map (createMismatch env) :=
      List.mem_map.mpr ⟨m, hmem, rfl⟩
    rw [hmap, hc] at this
    simp at this

/-- Claim C18 at a response holding the scenario record followed by a record
with agenda number 3 and no addendum: nothing is returned. -/
theorem parseMismatches_aborts_without_addendum_witness :
    createMismatch sampleEnv scenarioRecord ≠ none ∧
    (patternWords none = none ∧ parseAgendaNo agendaWithoutAddendum = none ∧
      createMismatch sampleEnv agendaWithoutAddendum = none ∧
      parseMismatches sampleEnv
        { total := JSVal.num 2, result := { items := [scenarioRecord, agendaWithoutAddendum] } } =
        none) :=
  ⟨by decide,
    parseMismatches_aborts_without_addendum sampleEnv
      { total := JSVal.num 2, result := { items := [scenarioRecord, agendaWithoutAddendum] } }
      agendaWithoutAddendum { emptyKey with agendaId := some ⟨some 3⟩ } ⟨some 3⟩
      (by decide) rfl rfl rfl (by decide) rfl⟩

end Spotcheck
